import Mathlib

/-!
# Verification of the cardano-ledger-key-extractor derivation core

This file gives a shallow embedding, in Lean, of the master-key derivation
pipeline of the repository (src/index.js): the byte/hex codec, the mnemonic
validator, the rejection-sampling hasher, the bit tweaker and the master key
assembler, together with models of the external primitives those functions
call (Node's crypto SHA-512 / SHA-256 / HMAC / PBKDF2 and the bip39 package's
entropy↔mnemonic codec), and proves the behavioural claims made by the
specification against these definitions.

Byte strings are `List Nat` with every element below 256.  The hash cores
work on 64-bit (resp. 32-bit) words in the sense of FIPS 180-4; a block and
the running state are kept packed, big-endian, in a single `Nat`, and the
words of a block are addressed by shifts and masks.  Nat arithmetic on such
packed values is exact, so no information is lost with respect to a byte
level formulation; the byte-level wrappers (`sha512Bytes`, `sha256Bytes`)
convert at the boundary.
-/

set_option maxRecDepth 2000000

/-- The 64-bit all-ones mask, 2^64 - 1. -/
def M64 : Nat := 18446744073709551615

/-- The 1024-bit all-ones mask (one SHA-512 block / 16-word schedule window). -/
def M1024 : Nat := 179769313486231590772930519078902473361797697894230657273430081157732675805500963132708477322407536021120113879871393357658789768814416622492847430639474124377767893424865485276302219601246094119453082952085005768838150682342462881473913110540827237163350510684586298239947245938479716304835356329624224137215

/-- The 32-bit all-ones mask, 2^32 - 1. -/
def M32 : Nat := 4294967295

/-- The 512-bit all-ones mask (one SHA-256 block / 16-word schedule window). -/
def M512 : Nat := 13407807929942597099574024998205846127479365820592393377723561443721764030073546976801874298166903427690031858186486050853753882811946569946433649006084095

/-- Big-endian bytes of a natural number, fixed width: `natToBytesBE n x` is the
`n` low-order bytes of `x`, most significant first. -/
def natToBytesBE : Nat → Nat → List Nat
  | 0, _ => []
  | n+1, x => natToBytesBE n (Nat.shiftRight x 8) ++ [Nat.land x 255]

/-- Pack a byte list into a single natural number, big-endian (first byte most
significant). -/
def packBytes (bs : List Nat) : Nat := bs.foldl (fun acc b => acc * 256 + b) 0

/-- Split a list into consecutive chunks of `n` elements (the last chunk may be
shorter); the first argument is fuel, one unit per chunk. -/
def chunksGo (n : Nat) : Nat → List α → List (List α)
  | 0, _ => []
  | _, [] => []
  | fuel+1, a :: t => (a :: t).take n :: chunksGo n fuel ((a :: t).drop n)

/-- Split a list into consecutive chunks of `n` elements. -/
def chunks (n : Nat) (l : List α) : List (List α) := chunksGo n l.length l

/-! ## SHA-512 (FIPS 180-4 §6.4), modelled from the spec: the `sha512` hash
used by Node's `crypto` module, which src/index.js invokes through
`createHmac("sha512", ...)` and `pbkdf2Sync(..., "sha512")`. -/

/-- The eighty 64-bit SHA-512 round constants of FIPS 180-4 §4.2.3, packed
big-endian into one 5120-bit number, K_0 in the most significant position. -/
def shaKP512 : Nat := 48799935969327324317454573271128211996440901110400544753559103821140222242040462765270234685523415735995734265097513028069214629696127979330504410405068363803640233105338079081690014599517965252282902265922514186354389730723821336489964343756820536605654444877666242259603869016454930259399203385789115481284128692419414590607127426642313384205579347747807725147450357543486256163163363051350049773588967095775245197315559294335762735378556843320130960897574247446182386460794773627164275325009070427085921379465654990694584378776354857962470583065604196649141018181788046408836182578304651239388246191266194599170214898407978275708542313525481944943791292663188267013858047788675571291518291767397893788831357177081564947100231585314834427267038616161088749070254373879016536820179976389635834987969044592205909257778209502652317833336445460759802297511004432793915890434672386862944949451528339913580416727182718006143577694617139966621035549122068101259789798862478901707014934124919677825097134076215624466281759833855116396395425705802245089712907615744067185603897215884939925953919278825196024154999384124518734748507524409725879337338070005985029194376330341555524948417948559862415272910046531059558864624317299301013910461863067320714832076875795237158048621691629967068548530980353771592785504721687805621062678333221276735719867596878593870432314647094225182154583386567771692989139208270713419265002907666919576071253477518940519317940984776946509824148520783016083114851071853476935659681590930623782712572919435319497240041495

/-- The initial SHA-512 hash value of FIPS 180-4 §5.3.5, eight 64-bit words
packed big-endian, H_0 most significant. -/
def shaIVP512 : Nat := 5553695886275756354114946136778835491165961296423526488018107560760635245050263663676120264669891125477075321720197875136066046164503496587506630822601081

/-- Σ0 of FIPS 180-4 §4.1.3: rotr 28 xor rotr 34 xor rotr 39, on a 64-bit word. -/
def bigSig0 (x : Nat) : Nat :=
  Nat.xor (Nat.xor
    (Nat.land (Nat.lor (Nat.shiftRight x 28) (Nat.shiftLeft x 36)) M64)
    (Nat.land (Nat.lor (Nat.shiftRight x 34) (Nat.shiftLeft x 30)) M64))
    (Nat.land (Nat.lor (Nat.shiftRight x 39) (Nat.shiftLeft x 25)) M64)

/-- Σ1 of FIPS 180-4 §4.1.3: rotr 14 xor rotr 18 xor rotr 41, on a 64-bit word. -/
def bigSig1 (x : Nat) : Nat :=
  Nat.xor (Nat.xor
    (Nat.land (Nat.lor (Nat.shiftRight x 14) (Nat.shiftLeft x 50)) M64)
    (Nat.land (Nat.lor (Nat.shiftRight x 18) (Nat.shiftLeft x 46)) M64))
    (Nat.land (Nat.lor (Nat.shiftRight x 41) (Nat.shiftLeft x 23)) M64)

/-- σ0 of FIPS 180-4 §4.1.3: rotr 1 xor rotr 8 xor shr 7, on a 64-bit word. -/
def smlSig0 (x : Nat) : Nat :=
  Nat.xor (Nat.xor
    (Nat.land (Nat.lor (Nat.shiftRight x 1) (Nat.shiftLeft x 63)) M64)
    (Nat.land (Nat.lor (Nat.shiftRight x 8) (Nat.shiftLeft x 56)) M64))
    (Nat.shiftRight x 7)

/-- σ1 of FIPS 180-4 §4.1.3: rotr 19 xor rotr 61 xor shr 6, on a 64-bit word. -/
def smlSig1 (x : Nat) : Nat :=
  Nat.xor (Nat.xor
    (Nat.land (Nat.lor (Nat.shiftRight x 19) (Nat.shiftLeft x 45)) M64)
    (Nat.land (Nat.lor (Nat.shiftRight x 61) (Nat.shiftLeft x 3)) M64))
    (Nat.shiftRight x 6)

/-- Ch of FIPS 180-4 §4.1.3 on 64-bit words ((e and f) xor (not e and g)). -/
def chF (e f g : Nat) : Nat := Nat.xor (Nat.land e f) (Nat.land (Nat.xor e M64) g)

/-- Maj of FIPS 180-4 §4.1.3 ((a and b) xor (a and c) xor (b and c)). -/
def majF (a b c : Nat) : Nat :=
  Nat.xor (Nat.xor (Nat.land a b) (Nat.land a c)) (Nat.land b c)

/-- The eighty SHA-512 rounds, FIPS 180-4 §6.4.2 steps 2-3.  The first
argument counts the remaining rounds down from 80 (so the round index is
`80 - t` and the round constant K_t sits `64 * (t - 1)` bits up in
`shaKP512`).  `win` is the sliding sixteen-word message-schedule window,
packed in 1024 bits with the word W_t consumed by the current round in the
most significant position; each round also extends the schedule by
W_t16 = σ1 W_t14 + W_t9 + σ0 W_t1 + W_t (mod 2^64), shifting it in at the
bottom of the window.  `a` … `h` are the eight working registers.  When the
counter runs out the registers are returned packed into 512 bits, `a` most
significant. -/
def sha512Go : Nat → Nat → Nat → Nat → Nat → Nat → Nat → Nat → Nat → Nat → Nat
  | 0, _, a, b, c, d, e, f, g, h =>
    Nat.lor (Nat.shiftLeft (Nat.lor (Nat.shiftLeft (Nat.lor (Nat.shiftLeft
      (Nat.lor (Nat.shiftLeft (Nat.lor (Nat.shiftLeft (Nat.lor (Nat.shiftLeft
      (Nat.lor (Nat.shiftLeft a 64) b) 64) c) 64) d) 64) e) 64) f) 64) g) 64) h
  | t+1, win, a, b, c, d, e, f, g, h =>
    let wt := Nat.shiftRight win 960
    let t1 := h + bigSig1 e + chF e f g + Nat.land (Nat.shiftRight shaKP512 (64 * t)) M64 + wt
    let t2 := bigSig0 a + majF a b c
    let w16 := Nat.land
      (smlSig1 (Nat.land (Nat.shiftRight win 64) M64) +
       Nat.land (Nat.shiftRight win 384) M64 +
       smlSig0 (Nat.land (Nat.shiftRight win 896) M64) + wt) M64
    sha512Go t (Nat.lor (Nat.land (Nat.shiftLeft win 64) M1024) w16)
      (Nat.land (t1 + t2) M64) a b c (Nat.land (d + t1) M64) e f g

/-- One SHA-512 compression (FIPS 180-4 §6.4.2): run the eighty rounds on a
1024-bit block starting from the packed 512-bit state `hp`, then add the
result into the state word by word mod 2^64 (the match materialises the
round output before the eight words are extracted from it). -/
def sha512CompressP (hp block : Nat) : Nat :=
  match sha512Go 80 block
      (Nat.land (Nat.shiftRight hp 448) M64) (Nat.land (Nat.shiftRight hp 384) M64)
      (Nat.land (Nat.shiftRight hp 320) M64) (Nat.land (Nat.shiftRight hp 256) M64)
      (Nat.land (Nat.shiftRight hp 192) M64) (Nat.land (Nat.shiftRight hp 128) M64)
      (Nat.land (Nat.shiftRight hp 64) M64) (Nat.land hp M64) with
  | out =>
    Nat.lor (Nat.shiftLeft (Nat.lor (Nat.shiftLeft (Nat.lor (Nat.shiftLeft
      (Nat.lor (Nat.shiftLeft (Nat.lor (Nat.shiftLeft (Nat.lor (Nat.shiftLeft
      (Nat.lor (Nat.shiftLeft
      (Nat.land (Nat.shiftRight hp 448 + Nat.shiftRight out 448) M64) 64)
      (Nat.land (Nat.shiftRight hp 384 + Nat.shiftRight out 384) M64)) 64)
      (Nat.land (Nat.shiftRight hp 320 + Nat.shiftRight out 320) M64)) 64)
      (Nat.land (Nat.shiftRight hp 256 + Nat.shiftRight out 256) M64)) 64)
      (Nat.land (Nat.shiftRight hp 192 + Nat.shiftRight out 192) M64)) 64)
      (Nat.land (Nat.shiftRight hp 128 + Nat.shiftRight out 128) M64)) 64)
      (Nat.land (Nat.shiftRight hp 64 + Nat.shiftRight out 64) M64)) 64)
      (Nat.land (hp + out) M64)

/-- Fold SHA-512 compressions over a list of packed 1024-bit blocks; the
match on the compression result materialises the chaining state between
blocks. -/
def sha512Fold : List Nat → Nat → Nat
  | [], hp => hp
  | b :: rest, hp =>
    match sha512CompressP hp b with
    | 0 => sha512Fold rest 0
    | hp2+1 => sha512Fold rest (hp2+1)

/-- SHA-512 padding (FIPS 180-4 §5.1.2): append the byte 0x80, then zero bytes
up to 112 mod 128, then the message bit length as 16 big-endian bytes. -/
def sha512Pad (msg : List Nat) : List Nat :=
  msg ++ 128 :: List.replicate ((128 - (msg.length + 17) % 128) % 128) 0 ++
    natToBytesBE 16 (8 * msg.length)

/-- SHA-512 of a byte string: pad, split into 128-byte blocks, compress, and
serialise the final state big-endian (64 digest bytes). -/
def sha512Bytes (msg : List Nat) : List Nat :=
  natToBytesBE 64 (sha512Fold ((chunks 128 (sha512Pad msg)).map packBytes) shaIVP512)

/-! ## SHA-256 (FIPS 180-4 §6.2), modelled from the spec: the `sha256` hash
used by Node's `crypto` module (the chain-code HMAC of src/index.js) and by
the BIP39 checksum. -/

/-- The sixty-four 32-bit SHA-256 round constants of FIPS 180-4 §4.2.2,
packed big-endian into one 2048-bit number, K_0 most significant. -/
def shaKP256 : Nat := 8399870144517823301722239222130927227141849779511242471197906795369846673996008864786532278482947930035050432913372875699354429524650716672308175015812472005008943341011247634627600705591103756174659437448007297240981034636327441933849465611186184660803773840414514428031635770391245199770927811112653141372483794982516161135727373084047811483050876080270389320947077305721183235613169389468744126235534648516788175255292025668825020963291224099932572215580391753777671218957634024159536228058522778003881673030597872562207069818177476920296259993961459554031943090626293016819766823808480230688357231269177224952050

/-- The initial SHA-256 hash value of FIPS 180-4 §5.3.3, eight 32-bit words
packed big-endian, H_0 most significant. -/
def shaIVP256 : Nat := 47962653771679561900652889051773562940742041696833059450490514104358170316057

/-- SHA-256 Σ0 (FIPS 180-4 §4.1.2): rotr 2 xor rotr 13 xor rotr 22 on 32 bits. -/
def bigSig0s (x : Nat) : Nat :=
  Nat.xor (Nat.xor
    (Nat.land (Nat.lor (Nat.shiftRight x 2) (Nat.shiftLeft x 30)) M32)
    (Nat.land (Nat.lor (Nat.shiftRight x 13) (Nat.shiftLeft x 19)) M32))
    (Nat.land (Nat.lor (Nat.shiftRight x 22) (Nat.shiftLeft x 10)) M32)

/-- SHA-256 Σ1 (FIPS 180-4 §4.1.2): rotr 6 xor rotr 11 xor rotr 25 on 32 bits. -/
def bigSig1s (x : Nat) : Nat :=
  Nat.xor (Nat.xor
    (Nat.land (Nat.lor (Nat.shiftRight x 6) (Nat.shiftLeft x 26)) M32)
    (Nat.land (Nat.lor (Nat.shiftRight x 11) (Nat.shiftLeft x 21)) M32))
    (Nat.land (Nat.lor (Nat.shiftRight x 25) (Nat.shiftLeft x 7)) M32)

/-- SHA-256 σ0 (FIPS 180-4 §4.1.2): rotr 7 xor rotr 18 xor shr 3 on 32 bits. -/
def smlSig0s (x : Nat) : Nat :=
  Nat.xor (Nat.xor
    (Nat.land (Nat.lor (Nat.shiftRight x 7) (Nat.shiftLeft x 25)) M32)
    (Nat.land (Nat.lor (Nat.shiftRight x 18) (Nat.shiftLeft x 14)) M32))
    (Nat.shiftRight x 3)

/-- SHA-256 σ1 (FIPS 180-4 §4.1.2): rotr 17 xor rotr 19 xor shr 10 on 32 bits. -/
def smlSig1s (x : Nat) : Nat :=
  Nat.xor (Nat.xor
    (Nat.land (Nat.lor (Nat.shiftRight x 17) (Nat.shiftLeft x 15)) M32)
    (Nat.land (Nat.lor (Nat.shiftRight x 19) (Nat.shiftLeft x 13)) M32))
    (Nat.shiftRight x 10)

/-- Ch on 32-bit words ((e and f) xor (not e and g)). -/
def chFs (e f g : Nat) : Nat := Nat.xor (Nat.land e f) (Nat.land (Nat.xor e M32) g)

/-- The sixty-four SHA-256 rounds (FIPS 180-4 §6.2.2 steps 2-3), the exact
32-bit analogue of `sha512Go`: countdown from 64, sliding 512-bit
sixteen-word schedule window with W_t on top and
W_t16 = σ1 W_t14 + W_t9 + σ0 W_t1 + W_t (mod 2^32) shifted in at the bottom,
registers returned packed into 256 bits when the counter runs out. -/
def sha256Go : Nat → Nat → Nat → Nat → Nat → Nat → Nat → Nat → Nat → Nat → Nat
  | 0, _, a, b, c, d, e, f, g, h =>
    Nat.lor (Nat.shiftLeft (Nat.lor (Nat.shiftLeft (Nat.lor (Nat.shiftLeft
      (Nat.lor (Nat.shiftLeft (Nat.lor (Nat.shiftLeft (Nat.lor (Nat.shiftLeft
      (Nat.lor (Nat.shiftLeft a 32) b) 32) c) 32) d) 32) e) 32) f) 32) g) 32) h
  | t+1, win, a, b, c, d, e, f, g, h =>
    let wt := Nat.shiftRight win 480
    let t1 := h + bigSig1s e + chFs e f g + Nat.land (Nat.shiftRight shaKP256 (32 * t)) M32 + wt
    let t2 := bigSig0s a + majF a b c
    let w16 := Nat.land
      (smlSig1s (Nat.land (Nat.shiftRight win 32) M32) +
       Nat.land (Nat.shiftRight win 192) M32 +
       smlSig0s (Nat.land (Nat.shiftRight win 448) M32) + wt) M32
    sha256Go t (Nat.lor (Nat.land (Nat.shiftLeft win 32) M512) w16)
      (Nat.land (t1 + t2) M32) a b c (Nat.land (d + t1) M32) e f g

/-- One SHA-256 compression (FIPS 180-4 §6.2.2) on a packed 512-bit block and
packed 256-bit state, with the word-wise mod 2^32 feed-forward addition. -/
def sha256CompressP (hp block : Nat) : Nat :=
  match sha256Go 64 block
      (Nat.land (Nat.shiftRight hp 224) M32) (Nat.land (Nat.shiftRight hp 192) M32)
      (Nat.land (Nat.shiftRight hp 160) M32) (Nat.land (Nat.shiftRight hp 128) M32)
      (Nat.land (Nat.shiftRight hp 96) M32) (Nat.land (Nat.shiftRight hp 64) M32)
      (Nat.land (Nat.shiftRight hp 32) M32) (Nat.land hp M32) with
  | out =>
    Nat.lor (Nat.shiftLeft (Nat.lor (Nat.shiftLeft (Nat.lor (Nat.shiftLeft
      (Nat.lor (Nat.shiftLeft (Nat.lor (Nat.shiftLeft (Nat.lor (Nat.shiftLeft
      (Nat.lor (Nat.shiftLeft
      (Nat.land (Nat.shiftRight hp 224 + Nat.shiftRight out 224) M32) 32)
      (Nat.land (Nat.shiftRight hp 192 + Nat.shiftRight out 192) M32)) 32)
      (Nat.land (Nat.shiftRight hp 160 + Nat.shiftRight out 160) M32)) 32)
      (Nat.land (Nat.shiftRight hp 128 + Nat.shiftRight out 128) M32)) 32)
      (Nat.land (Nat.shiftRight hp 96 + Nat.shiftRight out 96) M32)) 32)
      (Nat.land (Nat.shiftRight hp 64 + Nat.shiftRight out 64) M32)) 32)
      (Nat.land (Nat.shiftRight hp 32 + Nat.shiftRight out 32) M32)) 32)
      (Nat.land (hp + out) M32)

/-- Fold SHA-256 compressions over packed 512-bit blocks, materialising the
chaining state between blocks. -/
def sha256Fold : List Nat → Nat → Nat
  | [], hp => hp
  | b :: rest, hp =>
    match sha256CompressP hp b with
    | 0 => sha256Fold rest 0
    | hp2+1 => sha256Fold rest (hp2+1)

/-- SHA-256 padding (FIPS 180-4 §5.1.1): 0x80, zeros up to 56 mod 64, then
the bit length as 8 big-endian bytes. -/
def sha256Pad (msg : List Nat) : List Nat :=
  msg ++ 128 :: List.replicate ((64 - (msg.length + 9) % 64) % 64) 0 ++
    natToBytesBE 8 (8 * msg.length)

/-- SHA-256 of a byte string (32 digest bytes). -/
def sha256Bytes (msg : List Nat) : List Nat :=
  natToBytesBE 32 (sha256Fold ((chunks 64 (sha256Pad msg)).map packBytes) shaIVP256)

/-! ## HMAC (RFC 2104), modelled from the spec: Node's
`crypto.createHmac(alg, key)`, as called by src/index.js with string keys
(which Node encodes as UTF-8 / Latin-1-coincident ASCII bytes). -/

/-- RFC 2104 key normalisation: a key longer than the block is hashed, then
the result is zero-padded to the block size. -/
def hmacKeyBlock (hash : List Nat → List Nat) (blockSize : Nat) (key : List Nat) : List Nat :=
  let k0 := if key.length > blockSize then hash key else key
  k0 ++ List.replicate (blockSize - k0.length) 0

/-- HMAC-SHA512 (RFC 2104): H((K0 xor opad) ‖ H((K0 xor ipad) ‖ msg)) with a
128-byte block, ipad byte 0x36, opad byte 0x5c. -/
def hmacSha512 (key msg : List Nat) : List Nat :=
  let k0 := hmacKeyBlock sha512Bytes 128 key
  sha512Bytes ((k0.map fun b => Nat.xor b 92) ++
    sha512Bytes ((k0.map fun b => Nat.xor b 54) ++ msg))

/-- HMAC-SHA256 (RFC 2104) with a 64-byte block. -/
def hmacSha256 (key msg : List Nat) : List Nat :=
  let k0 := hmacKeyBlock sha256Bytes 64 key
  sha256Bytes ((k0.map fun b => Nat.xor b 92) ++
    sha256Bytes ((k0.map fun b => Nat.xor b 54) ++ msg))

/-! ## PBKDF2-HMAC-SHA512 (RFC 2898 §5.2), modelled from the spec: Node's
`crypto.pbkdf2Sync(password, salt, iterations, keylen, "sha512")`.

The iterate U_j+1 = HMAC(P, U_j) always hashes a 64-byte message, so each
HMAC costs exactly two SHA-512 compressions once the two key-pad block
states H(K0 xor ipad) and H(K0 xor opad) are compressed once up front - the
standard precomputation every PBKDF2 implementation performs.  The suffix a
64-byte payload leaves in the second 128-byte block of either hash is always
the same: 0x80, 47 zero bytes, and the 16-byte bit length 1536. -/

/-- The constant 1024-bit second block for a SHA-512 hash of a 128-byte key
pad followed by a 64-byte payload: the payload packed into the upper 512
bits, then 0x80, 47 zero bytes and the bit length 1536 = 0x600. -/
def hmacTail512 : Nat := 6703903964971298549787012499102923063739682910296196688861780721860882015036773488400937149083451713845015929093243025426876941405973284973216824503043584

/-- One PBKDF2-HMAC-SHA512 iterate on a packed 64-byte value: the inner hash
continues from the precomputed ipad-block state with the block
(u ‖ 0x80 ‖ 0^47 ‖ len), the outer hash continues from the opad-block state
with the inner digest framed the same way.  The match materialises the inner
digest before the outer compression consumes it. -/
def hmacSha512IterP (ipadSt opadSt u : Nat) : Nat :=
  match sha512CompressP ipadSt (Nat.lor (Nat.shiftLeft u 512) hmacTail512) with
  | 0 => sha512CompressP opadSt hmacTail512
  | i+1 => sha512CompressP opadSt (Nat.lor (Nat.shiftLeft (i+1) 512) hmacTail512)

/-- One accumulation step on the (U_j, partial-xor) state pair, generic in
the iterate function: the next iterate `g U_j` replaces the first component
and is xor-folded into the second.  The match materialises the iterate
before it is stored twice. -/
def stepAcc (g : Nat → Nat) (p : Nat × Nat) : Nat × Nat :=
  match g p.1 with
  | 0 => (0, p.2)
  | v+1 => (v+1, Nat.xor p.2 (v+1))

/-- `n` accumulation steps on the state pair; the match on the iterate in
the recursive case materialises it before the next step (proved below to
take exactly one `stepAcc` per step). -/
def iterPair (g : Nat → Nat) : Nat → Nat × Nat → Nat × Nat
  | 0, p => p
  | n+1, p =>
    match g p.1 with
    | 0 => iterPair g n (0, p.2)
    | v+1 => iterPair g n (v+1, Nat.xor p.2 (v+1))

/-- The RFC 2898 §5.2 accumulation U_j+1 = PRF(P, U_j), T = U_1 xor … xor U_c,
run for the remaining `n` iterations on packed 64-byte values: `n` steps of
the state pair, keeping the accumulator. -/
def pbkdf2Loop (ipadSt opadSt : Nat) (n u acc : Nat) : Nat :=
  (iterPair (hmacSha512IterP ipadSt opadSt) n (u, acc)).2

/-- PBKDF2-HMAC-SHA512 (RFC 2898 §5.2): derive `dkLen` bytes from `password`
and `salt` with `c` iterations.  Block T_i starts from
U_1 = HMAC(P, S ‖ INT32BE(i)) and xors the following c - 1 iterates into the
accumulator; the blocks are concatenated and truncated to `dkLen`. -/
def pbkdf2HmacSha512 (password salt : List Nat) (c dkLen : Nat) : List Nat :=
  let k0 := hmacKeyBlock sha512Bytes 128 password
  let ipadSt := sha512CompressP shaIVP512 (packBytes (k0.map fun b => Nat.xor b 54))
  let opadSt := sha512CompressP shaIVP512 (packBytes (k0.map fun b => Nat.xor b 92))
  (((List.range ((dkLen + 63) / 64)).map fun i =>
    natToBytesBE 64 (pbkdf2Loop ipadSt opadSt (c - 1)
      (packBytes (hmacSha512 password (salt ++ natToBytesBE 4 (i + 1))))
      (packBytes (hmacSha512 password (salt ++ natToBytesBE 4 (i + 1)))))).flatten).take dkLen

/-! ## Byte/Hex codec (src/index.js `toByteArray`, `toHexString`) and the
JavaScript string primitives they are built on. -/

/-- The whitespace characters recognised here for JavaScript's `trim`, the
regexp class `\\s`, and `parseInt`'s leading-whitespace skipping: space, tab,
line feed, vertical tab, form feed, carriage return.  (JavaScript also
includes Unicode space characters, which never occur in the ASCII data this
development reasons about.) -/
def isJsWhitespace (c : Char) : Bool :=
  c == ' ' || c == '\t' || c == '\n' || c == '\r' ||
  c == Char.ofNat 11 || c == Char.ofNat 12

/-- Decide whether a character is a hexadecimal digit (either case). -/
def isHexDigit (c : Char) : Bool :=
  ('0' ≤ c && c ≤ '9') || ('a' ≤ c && c ≤ 'f') || ('A' ≤ c && c ≤ 'F')

/-- The value of a hexadecimal digit (0 for non-digits; callers guard). -/
def hexDigitVal (c : Char) : Nat :=
  if '0' ≤ c && c ≤ '9' then c.toNat - 48
  else if 'a' ≤ c && c ≤ 'f' then c.toNat - 87
  else if 'A' ≤ c && c ≤ 'F' then c.toNat - 55
  else 0

/-- JavaScript `parseInt(s, 16)` (ECMA-262): skip leading whitespace, read an
optional sign, strip an optional `0x`/`0X` prefix, then take the longest
prefix of hexadecimal digits; no digits gives NaN, modelled as `none`. -/
def jsParseIntHex (cs : List Char) : Option Int :=
  let t := cs.dropWhile isJsWhitespace
  let sign : Int := match t with | '-' :: _ => -1 | _ => 1
  let t1 := match t with | '-' :: r => r | '+' :: r => r | r => r
  let t2 := match t1 with
    | '0' :: 'x' :: r => r
    | '0' :: 'X' :: r => r
    | r => r
  let ds := t2.takeWhile isHexDigit
  if ds.isEmpty then none
  else some (sign * (ds.foldl (fun acc c => 16 * acc + hexDigitVal c) 0 : Nat))

/-- ECMAScript ToUint8, as applied when a number is stored into a
`Uint8Array`: NaN becomes 0, and an integer is taken modulo 256 into
0..255. -/
def jsToUint8 : Option Int → Nat
  | none => 0
  | some z => (z % 256).toNat

/-- JavaScript `s.substring(a, b)`: both indices are clamped to the string's
length (and swapped if out of order, which the caller below never needs). -/
def jsSubstring (cs : List Char) (a b : Nat) : List Char :=
  let a2 := min a cs.length
  let b2 := min b cs.length
  (cs.take (max a2 b2)).drop (min a2 b2)

/-- A store into a JavaScript typed array: an index beyond the length is
silently discarded. -/
def typedArrayWrite (l : List Nat) (i v : Nat) : List Nat :=
  if i < l.length then l.set i v else l

/-- The loop of `toByteArray` (src/index.js lines 13-15):
`for (let i = 0; i < n; i += 2) result[i / 2] = parseInt(s.substring(i, i + 2), 16)`.
The first argument of the recursion counts the remaining iterations,
`⌈n/2⌉` at the start. -/
def toByteArrayGo (s : List Char) (n : Nat) : Nat → Nat → List Nat → List Nat
  | 0, _, result => result
  | steps+1, i, result =>
    toByteArrayGo s n steps (i + 2)
      (typedArrayWrite result (i / 2) (jsToUint8 (jsParseIntHex (jsSubstring s i (i + 2)))))

/-- src/index.js `toByteArray(hexString)` (exported to the spec as
`fromHexString`): allocate `new Uint8Array(hexString.length / 2)` — the
ECMAScript ToIndex conversion truncates the fractional half on odd lengths —
then fill it two characters at a time with `parseInt(·, 16)`; on an odd
length the final one-character parse is written one slot past the end of the
typed array and therefore discarded. -/
def toByteArray (s : String) : List Nat :=
  toByteArrayGo s.data s.length ((s.length + 1) / 2) 0 (List.replicate (s.length / 2) 0)

/-- JavaScript `n.toString(16)` for a natural number: lowercase hexadecimal
digits, no padding. -/
def jsNumToHex (n : Nat) : String := String.mk (Nat.toDigits 16 n)

/-- JavaScript `s.padStart(2, "0")`. -/
def jsPadStart2 (s : String) : String :=
  String.mk (List.replicate (2 - s.length) '0') ++ s

/-- src/index.js `toHexString(bytes)`:
`bytes.reduce((str, byte) => str + byte.toString(16).padStart(2, "0"), "")`. -/
def toHexString (bytes : List Nat) : String :=
  bytes.foldl (fun str byte => str ++ jsPadStart2 (jsNumToHex byte)) ""

/-- Node's `Buffer.from(s, "hex")`, as the bip39 package applies it to an
entropy argument passed as a string: decode hexadecimal digit pairs from the
left and stop at the first pair that is not two hexadecimal digits (an odd
trailing character is likewise dropped). -/
def bufferFromHexGo : List Char → List Nat
  | c1 :: c2 :: rest =>
    if isHexDigit c1 && isHexDigit c2 then
      (16 * hexDigitVal c1 + hexDigitVal c2) :: bufferFromHexGo rest
    else []
  | _ => []

/-- Node's `Buffer.from(s, "hex")`. -/
def bufferFromHex (s : String) : List Nat := bufferFromHexGo s.data

/-! ## The BIP39 mnemonic↔entropy codec, modelled from the spec: src/index.js
calls the external `bip39` package for `entropyToMnemonic`,
`mnemonicToEntropy`, `validateMnemonic` and its English wordlist; the
specification treats this codec as a collaborator primitive implementing the
BIP39 standard ("the BIP39 standard's own wordlist+checksum algorithm"), so
it is modelled here directly from that standard.  The package first applies
Unicode NFKD normalisation to its input; NFKD is the identity on the ASCII
strings this development reasons about, so it is not modelled. -/

/-- The 2048-word English wordlist of BIP39 (the `bip39` package's default
wordlist), in order; word 0 is "abandon". -/
def englishWordlist : List String := [
  "abandon", "ability", "able", "about", "above", "absent", "absorb", "abstract",
  "absurd", "abuse", "access", "accident", "account", "accuse", "achieve", "acid",
  "acoustic", "acquire", "across", "act", "action", "actor", "actress", "actual",
  "adapt", "add", "addict", "address", "adjust", "admit", "adult", "advance",
  "advice", "aerobic", "affair", "afford", "afraid", "again", "age", "agent",
  "agree", "ahead", "aim", "air", "airport", "aisle", "alarm", "album",
  "alcohol", "alert", "alien", "all", "alley", "allow", "almost", "alone",
  "alpha", "already", "also", "alter", "always", "amateur", "amazing", "among",
  "amount", "amused", "analyst", "anchor", "ancient", "anger", "angle", "angry",
  "animal", "ankle", "announce", "annual", "another", "answer", "antenna", "antique",
  "anxiety", "any", "apart", "apology", "appear", "apple", "approve", "april",
  "arch", "arctic", "area", "arena", "argue", "arm", "armed", "armor",
  "army", "around", "arrange", "arrest", "arrive", "arrow", "art", "artefact",
  "artist", "artwork", "ask", "aspect", "assault", "asset", "assist", "assume",
  "asthma", "athlete", "atom", "attack", "attend", "attitude", "attract", "auction",
  "audit", "august", "aunt", "author", "auto", "autumn", "average", "avocado",
  "avoid", "awake", "aware", "away", "awesome", "awful", "awkward", "axis",
  "baby", "bachelor", "bacon", "badge", "bag", "balance", "balcony", "ball",
  "bamboo", "banana", "banner", "bar", "barely", "bargain", "barrel", "base",
  "basic", "basket", "battle", "beach", "bean", "beauty", "because", "become",
  "beef", "before", "begin", "behave", "behind", "believe", "below", "belt",
  "bench", "benefit", "best", "betray", "better", "between", "beyond", "bicycle",
  "bid", "bike", "bind", "biology", "bird", "birth", "bitter", "black",
  "blade", "blame", "blanket", "blast", "bleak", "bless", "blind", "blood",
  "blossom", "blouse", "blue", "blur", "blush", "board", "boat", "body",
  "boil", "bomb", "bone", "bonus", "book", "boost", "border", "boring",
  "borrow", "boss", "bottom", "bounce", "box", "boy", "bracket", "brain",
  "brand", "brass", "brave", "bread", "breeze", "brick", "bridge", "brief",
  "bright", "bring", "brisk", "broccoli", "broken", "bronze", "broom", "brother",
  "brown", "brush", "bubble", "buddy", "budget", "buffalo", "build", "bulb",
  "bulk", "bullet", "bundle", "bunker", "burden", "burger", "burst", "bus",
  "business", "busy", "butter", "buyer", "buzz", "cabbage", "cabin", "cable",
  "cactus", "cage", "cake", "call", "calm", "camera", "camp", "can",
  "canal", "cancel", "candy", "cannon", "canoe", "canvas", "canyon", "capable",
  "capital", "captain", "car", "carbon", "card", "cargo", "carpet", "carry",
  "cart", "case", "cash", "casino", "castle", "casual", "cat", "catalog",
  "catch", "category", "cattle", "caught", "cause", "caution", "cave", "ceiling",
  "celery", "cement", "census", "century", "cereal", "certain", "chair", "chalk",
  "champion", "change", "chaos", "chapter", "charge", "chase", "chat", "cheap",
  "check", "cheese", "chef", "cherry", "chest", "chicken", "chief", "child",
  "chimney", "choice", "choose", "chronic", "chuckle", "chunk", "churn", "cigar",
  "cinnamon", "circle", "citizen", "city", "civil", "claim", "clap", "clarify",
  "claw", "clay", "clean", "clerk", "clever", "click", "client", "cliff",
  "climb", "clinic", "clip", "clock", "clog", "close", "cloth", "cloud",
  "clown", "club", "clump", "cluster", "clutch", "coach", "coast", "coconut",
  "code", "coffee", "coil", "coin", "collect", "color", "column", "combine",
  "come", "comfort", "comic", "common", "company", "concert", "conduct", "confirm",
  "congress", "connect", "consider", "control", "convince", "cook", "cool", "copper",
  "copy", "coral", "core", "corn", "correct", "cost", "cotton", "couch",
  "country", "couple", "course", "cousin", "cover", "coyote", "crack", "cradle",
  "craft", "cram", "crane", "crash", "crater", "crawl", "crazy", "cream",
  "credit", "creek", "crew", "cricket", "crime", "crisp", "critic", "crop",
  "cross", "crouch", "crowd", "crucial", "cruel", "cruise", "crumble", "crunch",
  "crush", "cry", "crystal", "cube", "culture", "cup", "cupboard", "curious",
  "current", "curtain", "curve", "cushion", "custom", "cute", "cycle", "dad",
  "damage", "damp", "dance", "danger", "daring", "dash", "daughter", "dawn",
  "day", "deal", "debate", "debris", "decade", "december", "decide", "decline",
  "decorate", "decrease", "deer", "defense", "define", "defy", "degree", "delay",
  "deliver", "demand", "demise", "denial", "dentist", "deny", "depart", "depend",
  "deposit", "depth", "deputy", "derive", "describe", "desert", "design", "desk",
  "despair", "destroy", "detail", "detect", "develop", "device", "devote", "diagram",
  "dial", "diamond", "diary", "dice", "diesel", "diet", "differ", "digital",
  "dignity", "dilemma", "dinner", "dinosaur", "direct", "dirt", "disagree", "discover",
  "disease", "dish", "dismiss", "disorder", "display", "distance", "divert", "divide",
  "divorce", "dizzy", "doctor", "document", "dog", "doll", "dolphin", "domain",
  "donate", "donkey", "donor", "door", "dose", "double", "dove", "draft",
  "dragon", "drama", "drastic", "draw", "dream", "dress", "drift", "drill",
  "drink", "drip", "drive", "drop", "drum", "dry", "duck", "dumb",
  "dune", "during", "dust", "dutch", "duty", "dwarf", "dynamic", "eager",
  "eagle", "early", "earn", "earth", "easily", "east", "easy", "echo",
  "ecology", "economy", "edge", "edit", "educate", "effort", "egg", "eight",
  "either", "elbow", "elder", "electric", "elegant", "element", "elephant", "elevator",
  "elite", "else", "embark", "embody", "embrace", "emerge", "emotion", "employ",
  "empower", "empty", "enable", "enact", "end", "endless", "endorse", "enemy",
  "energy", "enforce", "engage", "engine", "enhance", "enjoy", "enlist", "enough",
  "enrich", "enroll", "ensure", "enter", "entire", "entry", "envelope", "episode",
  "equal", "equip", "era", "erase", "erode", "erosion", "error", "erupt",
  "escape", "essay", "essence", "estate", "eternal", "ethics", "evidence", "evil",
  "evoke", "evolve", "exact", "example", "excess", "exchange", "excite", "exclude",
  "excuse", "execute", "exercise", "exhaust", "exhibit", "exile", "exist", "exit",
  "exotic", "expand", "expect", "expire", "explain", "expose", "express", "extend",
  "extra", "eye", "eyebrow", "fabric", "face", "faculty", "fade", "faint",
  "faith", "fall", "false", "fame", "family", "famous", "fan", "fancy",
  "fantasy", "farm", "fashion", "fat", "fatal", "father", "fatigue", "fault",
  "favorite", "feature", "february", "federal", "fee", "feed", "feel", "female",
  "fence", "festival", "fetch", "fever", "few", "fiber", "fiction", "field",
  "figure", "file", "film", "filter", "final", "find", "fine", "finger",
  "finish", "fire", "firm", "first", "fiscal", "fish", "fit", "fitness",
  "fix", "flag", "flame", "flash", "flat", "flavor", "flee", "flight",
  "flip", "float", "flock", "floor", "flower", "fluid", "flush", "fly",
  "foam", "focus", "fog", "foil", "fold", "follow", "food", "foot",
  "force", "forest", "forget", "fork", "fortune", "forum", "forward", "fossil",
  "foster", "found", "fox", "fragile", "frame", "frequent", "fresh", "friend",
  "fringe", "frog", "front", "frost", "frown", "frozen", "fruit", "fuel",
  "fun", "funny", "furnace", "fury", "future", "gadget", "gain", "galaxy",
  "gallery", "game", "gap", "garage", "garbage", "garden", "garlic", "garment",
  "gas", "gasp", "gate", "gather", "gauge", "gaze", "general", "genius",
  "genre", "gentle", "genuine", "gesture", "ghost", "giant", "gift", "giggle",
  "ginger", "giraffe", "girl", "give", "glad", "glance", "glare", "glass",
  "glide", "glimpse", "globe", "gloom", "glory", "glove", "glow", "glue",
  "goat", "goddess", "gold", "good", "goose", "gorilla", "gospel", "gossip",
  "govern", "gown", "grab", "grace", "grain", "grant", "grape", "grass",
  "gravity", "great", "green", "grid", "grief", "grit", "grocery", "group",
  "grow", "grunt", "guard", "guess", "guide", "guilt", "guitar", "gun",
  "gym", "habit", "hair", "half", "hammer", "hamster", "hand", "happy",
  "harbor", "hard", "harsh", "harvest", "hat", "have", "hawk", "hazard",
  "head", "health", "heart", "heavy", "hedgehog", "height", "hello", "helmet",
  "help", "hen", "hero", "hidden", "high", "hill", "hint", "hip",
  "hire", "history", "hobby", "hockey", "hold", "hole", "holiday", "hollow",
  "home", "honey", "hood", "hope", "horn", "horror", "horse", "hospital",
  "host", "hotel", "hour", "hover", "hub", "huge", "human", "humble",
  "humor", "hundred", "hungry", "hunt", "hurdle", "hurry", "hurt", "husband",
  "hybrid", "ice", "icon", "idea", "identify", "idle", "ignore", "ill",
  "illegal", "illness", "image", "imitate", "immense", "immune", "impact", "impose",
  "improve", "impulse", "inch", "include", "income", "increase", "index", "indicate",
  "indoor", "industry", "infant", "inflict", "inform", "inhale", "inherit", "initial",
  "inject", "injury", "inmate", "inner", "innocent", "input", "inquiry", "insane",
  "insect", "inside", "inspire", "install", "intact", "interest", "into", "invest",
  "invite", "involve", "iron", "island", "isolate", "issue", "item", "ivory",
  "jacket", "jaguar", "jar", "jazz", "jealous", "jeans", "jelly", "jewel",
  "job", "join", "joke", "journey", "joy", "judge", "juice", "jump",
  "jungle", "junior", "junk", "just", "kangaroo", "keen", "keep", "ketchup",
  "key", "kick", "kid", "kidney", "kind", "kingdom", "kiss", "kit",
  "kitchen", "kite", "kitten", "kiwi", "knee", "knife", "knock", "know",
  "lab", "label", "labor", "ladder", "lady", "lake", "lamp", "language",
  "laptop", "large", "later", "latin", "laugh", "laundry", "lava", "law",
  "lawn", "lawsuit", "layer", "lazy", "leader", "leaf", "learn", "leave",
  "lecture", "left", "leg", "legal", "legend", "leisure", "lemon", "lend",
  "length", "lens", "leopard", "lesson", "letter", "level", "liar", "liberty",
  "library", "license", "life", "lift", "light", "like", "limb", "limit",
  "link", "lion", "liquid", "list", "little", "live", "lizard", "load",
  "loan", "lobster", "local", "lock", "logic", "lonely", "long", "loop",
  "lottery", "loud", "lounge", "love", "loyal", "lucky", "luggage", "lumber",
  "lunar", "lunch", "luxury", "lyrics", "machine", "mad", "magic", "magnet",
  "maid", "mail", "main", "major", "make", "mammal", "man", "manage",
  "mandate", "mango", "mansion", "manual", "maple", "marble", "march", "margin",
  "marine", "market", "marriage", "mask", "mass", "master", "match", "material",
  "math", "matrix", "matter", "maximum", "maze", "meadow", "mean", "measure",
  "meat", "mechanic", "medal", "media", "melody", "melt", "member", "memory",
  "mention", "menu", "mercy", "merge", "merit", "merry", "mesh", "message",
  "metal", "method", "middle", "midnight", "milk", "million", "mimic", "mind",
  "minimum", "minor", "minute", "miracle", "mirror", "misery", "miss", "mistake",
  "mix", "mixed", "mixture", "mobile", "model", "modify", "mom", "moment",
  "monitor", "monkey", "monster", "month", "moon", "moral", "more", "morning",
  "mosquito", "mother", "motion", "motor", "mountain", "mouse", "move", "movie",
  "much", "muffin", "mule", "multiply", "muscle", "museum", "mushroom", "music",
  "must", "mutual", "myself", "mystery", "myth", "naive", "name", "napkin",
  "narrow", "nasty", "nation", "nature", "near", "neck", "need", "negative",
  "neglect", "neither", "nephew", "nerve", "nest", "net", "network", "neutral",
  "never", "news", "next", "nice", "night", "noble", "noise", "nominee",
  "noodle", "normal", "north", "nose", "notable", "note", "nothing", "notice",
  "novel", "now", "nuclear", "number", "nurse", "nut", "oak", "obey",
  "object", "oblige", "obscure", "observe", "obtain", "obvious", "occur", "ocean",
  "october", "odor", "off", "offer", "office", "often", "oil", "okay",
  "old", "olive", "olympic", "omit", "once", "one", "onion", "online",
  "only", "open", "opera", "opinion", "oppose", "option", "orange", "orbit",
  "orchard", "order", "ordinary", "organ", "orient", "original", "orphan", "ostrich",
  "other", "outdoor", "outer", "output", "outside", "oval", "oven", "over",
  "own", "owner", "oxygen", "oyster", "ozone", "pact", "paddle", "page",
  "pair", "palace", "palm", "panda", "panel", "panic", "panther", "paper",
  "parade", "parent", "park", "parrot", "party", "pass", "patch", "path",
  "patient", "patrol", "pattern", "pause", "pave", "payment", "peace", "peanut",
  "pear", "peasant", "pelican", "pen", "penalty", "pencil", "people", "pepper",
  "perfect", "permit", "person", "pet", "phone", "photo", "phrase", "physical",
  "piano", "picnic", "picture", "piece", "pig", "pigeon", "pill", "pilot",
  "pink", "pioneer", "pipe", "pistol", "pitch", "pizza", "place", "planet",
  "plastic", "plate", "play", "please", "pledge", "pluck", "plug", "plunge",
  "poem", "poet", "point", "polar", "pole", "police", "pond", "pony",
  "pool", "popular", "portion", "position", "possible", "post", "potato", "pottery",
  "poverty", "powder", "power", "practice", "praise", "predict", "prefer", "prepare",
  "present", "pretty", "prevent", "price", "pride", "primary", "print", "priority",
  "prison", "private", "prize", "problem", "process", "produce", "profit", "program",
  "project", "promote", "proof", "property", "prosper", "protect", "proud", "provide",
  "public", "pudding", "pull", "pulp", "pulse", "pumpkin", "punch", "pupil",
  "puppy", "purchase", "purity", "purpose", "purse", "push", "put", "puzzle",
  "pyramid", "quality", "quantum", "quarter", "question", "quick", "quit", "quiz",
  "quote", "rabbit", "raccoon", "race", "rack", "radar", "radio", "rail",
  "rain", "raise", "rally", "ramp", "ranch", "random", "range", "rapid",
  "rare", "rate", "rather", "raven", "raw", "razor", "ready", "real",
  "reason", "rebel", "rebuild", "recall", "receive", "recipe", "record", "recycle",
  "reduce", "reflect", "reform", "refuse", "region", "regret", "regular", "reject",
  "relax", "release", "relief", "rely", "remain", "remember", "remind", "remove",
  "render", "renew", "rent", "reopen", "repair", "repeat", "replace", "report",
  "require", "rescue", "resemble", "resist", "resource", "response", "result", "retire",
  "retreat", "return", "reunion", "reveal", "review", "reward", "rhythm", "rib",
  "ribbon", "rice", "rich", "ride", "ridge", "rifle", "right", "rigid",
  "ring", "riot", "ripple", "risk", "ritual", "rival", "river", "road",
  "roast", "robot", "robust", "rocket", "romance", "roof", "rookie", "room",
  "rose", "rotate", "rough", "round", "route", "royal", "rubber", "rude",
  "rug", "rule", "run", "runway", "rural", "sad", "saddle", "sadness",
  "safe", "sail", "salad", "salmon", "salon", "salt", "salute", "same",
  "sample", "sand", "satisfy", "satoshi", "sauce", "sausage", "save", "say",
  "scale", "scan", "scare", "scatter", "scene", "scheme", "school", "science",
  "scissors", "scorpion", "scout", "scrap", "screen", "script", "scrub", "sea",
  "search", "season", "seat", "second", "secret", "section", "security", "seed",
  "seek", "segment", "select", "sell", "seminar", "senior", "sense", "sentence",
  "series", "service", "session", "settle", "setup", "seven", "shadow", "shaft",
  "shallow", "share", "shed", "shell", "sheriff", "shield", "shift", "shine",
  "ship", "shiver", "shock", "shoe", "shoot", "shop", "short", "shoulder",
  "shove", "shrimp", "shrug", "shuffle", "shy", "sibling", "sick", "side",
  "siege", "sight", "sign", "silent", "silk", "silly", "silver", "similar",
  "simple", "since", "sing", "siren", "sister", "situate", "six", "size",
  "skate", "sketch", "ski", "skill", "skin", "skirt", "skull", "slab",
  "slam", "sleep", "slender", "slice", "slide", "slight", "slim", "slogan",
  "slot", "slow", "slush", "small", "smart", "smile", "smoke", "smooth",
  "snack", "snake", "snap", "sniff", "snow", "soap", "soccer", "social",
  "sock", "soda", "soft", "solar", "soldier", "solid", "solution", "solve",
  "someone", "song", "soon", "sorry", "sort", "soul", "sound", "soup",
  "source", "south", "space", "spare", "spatial", "spawn", "speak", "special",
  "speed", "spell", "spend", "sphere", "spice", "spider", "spike", "spin",
  "spirit", "split", "spoil", "sponsor", "spoon", "sport", "spot", "spray",
  "spread", "spring", "spy", "square", "squeeze", "squirrel", "stable", "stadium",
  "staff", "stage", "stairs", "stamp", "stand", "start", "state", "stay",
  "steak", "steel", "stem", "step", "stereo", "stick", "still", "sting",
  "stock", "stomach", "stone", "stool", "story", "stove", "strategy", "street",
  "strike", "strong", "struggle", "student", "stuff", "stumble", "style", "subject",
  "submit", "subway", "success", "such", "sudden", "suffer", "sugar", "suggest",
  "suit", "summer", "sun", "sunny", "sunset", "super", "supply", "supreme",
  "sure", "surface", "surge", "surprise", "surround", "survey", "suspect", "sustain",
  "swallow", "swamp", "swap", "swarm", "swear", "sweet", "swift", "swim",
  "swing", "switch", "sword", "symbol", "symptom", "syrup", "system", "table",
  "tackle", "tag", "tail", "talent", "talk", "tank", "tape", "target",
  "task", "taste", "tattoo", "taxi", "teach", "team", "tell", "ten",
  "tenant", "tennis", "tent", "term", "test", "text", "thank", "that",
  "theme", "then", "theory", "there", "they", "thing", "this", "thought",
  "three", "thrive", "throw", "thumb", "thunder", "ticket", "tide", "tiger",
  "tilt", "timber", "time", "tiny", "tip", "tired", "tissue", "title",
  "toast", "tobacco", "today", "toddler", "toe", "together", "toilet", "token",
  "tomato", "tomorrow", "tone", "tongue", "tonight", "tool", "tooth", "top",
  "topic", "topple", "torch", "tornado", "tortoise", "toss", "total", "tourist",
  "toward", "tower", "town", "toy", "track", "trade", "traffic", "tragic",
  "train", "transfer", "trap", "trash", "travel", "tray", "treat", "tree",
  "trend", "trial", "tribe", "trick", "trigger", "trim", "trip", "trophy",
  "trouble", "truck", "true", "truly", "trumpet", "trust", "truth", "try",
  "tube", "tuition", "tumble", "tuna", "tunnel", "turkey", "turn", "turtle",
  "twelve", "twenty", "twice", "twin", "twist", "two", "type", "typical",
  "ugly", "umbrella", "unable", "unaware", "uncle", "uncover", "under", "undo",
  "unfair", "unfold", "unhappy", "uniform", "unique", "unit", "universe", "unknown",
  "unlock", "until", "unusual", "unveil", "update", "upgrade", "uphold", "upon",
  "upper", "upset", "urban", "urge", "usage", "use", "used", "useful",
  "useless", "usual", "utility", "vacant", "vacuum", "vague", "valid", "valley",
  "valve", "van", "vanish", "vapor", "various", "vast", "vault", "vehicle",
  "velvet", "vendor", "venture", "venue", "verb", "verify", "version", "very",
  "vessel", "veteran", "viable", "vibrant", "vicious", "victory", "video", "view",
  "village", "vintage", "violin", "virtual", "virus", "visa", "visit", "visual",
  "vital", "vivid", "vocal", "voice", "void", "volcano", "volume", "vote",
  "voyage", "wage", "wagon", "wait", "walk", "wall", "walnut", "want",
  "warfare", "warm", "warrior", "wash", "wasp", "waste", "water", "wave",
  "way", "wealth", "weapon", "wear", "weasel", "weather", "web", "wedding",
  "weekend", "weird", "welcome", "west", "wet", "whale", "what", "wheat",
  "wheel", "when", "where", "whip", "whisper", "wide", "width", "wife",
  "wild", "will", "win", "window", "wine", "wing", "wink", "winner",
  "winter", "wire", "wisdom", "wise", "wish", "witness", "wolf", "woman",
  "wonder", "wood", "wool", "word", "work", "world", "worry", "worth",
  "wrap", "wreck", "wrestle", "wrist", "write", "wrong", "yard", "year",
  "yellow", "you", "young", "youth", "zebra", "zero", "zone", "zoo"]

/-- The bits of a byte string, most significant bit of each byte first. -/
def bytesToBits (bs : List Nat) : List Bool :=
  bs.flatMap fun b =>
    [Nat.testBit b 7, Nat.testBit b 6, Nat.testBit b 5, Nat.testBit b 4,
     Nat.testBit b 3, Nat.testBit b 2, Nat.testBit b 1, Nat.testBit b 0]

/-- A bit string read as a big-endian number. -/
def bitsToNat (bits : List Bool) : Nat :=
  bits.foldl (fun acc b => 2 * acc + (if b then 1 else 0)) 0

/-- Bits to bytes, eight at a time, most significant first. -/
def bitsToBytes (bits : List Bool) : List Nat := (chunks 8 bits).map bitsToNat

/-- The eleven bits of a wordlist index, most significant first. -/
def natToBits11 (n : Nat) : List Bool :=
  [Nat.testBit n 10, Nat.testBit n 9, Nat.testBit n 8, Nat.testBit n 7,
   Nat.testBit n 6, Nat.testBit n 5, Nat.testBit n 4, Nat.testBit n 3,
   Nat.testBit n 2, Nat.testBit n 1, Nat.testBit n 0]

/-- Modelled from the spec: the bip39 package's `entropyToMnemonic` on raw
entropy bytes (the package accepts a hex string and decodes it first; the
caller below composes with `bufferFromHex` accordingly).  Entropy must be
16-32 bytes, a multiple of 4; append the first ENT/32 bits of
SHA-256(entropy) as checksum, cut the bit string into 11-bit groups, and join
the so-indexed wordlist words with single spaces.  The package throws a
TypeError on invalid entropy, modelled as `none`. -/
def entropyToMnemonic (entropy : List Nat) : Option String :=
  if entropy.length < 16 ∨ 32 < entropy.length ∨ entropy.length % 4 ≠ 0 then none
  else some (String.intercalate " "
    ((chunks 11 (bytesToBits entropy ++
        (bytesToBits (sha256Bytes entropy)).take (entropy.length * 8 / 32))).map
      fun c => englishWordlist.getD (bitsToNat c) ""))

/-- The JavaScript `str.split(" ")` (split on every single space, keeping
empty pieces; the empty string yields `[""]`), as used by the bip39 package
on mnemonics. -/
def splitOnSpaceGo : List Char → List Char → List String
  | [], acc => [String.mk acc.reverse]
  | c :: rest, acc =>
    if c = ' ' then String.mk acc.reverse :: splitOnSpaceGo rest []
    else splitOnSpaceGo rest (c :: acc)

/-- JavaScript `s.split(" ")`. -/
def splitOnSpace (s : String) : List String := splitOnSpaceGo s.data []

/-- Modelled from the spec: the bip39 package's `mnemonicToEntropy`: split on
single spaces, require a multiple of three words each found in the wordlist,
concatenate their 11-bit indices, split the bit string at ⌊bits/33⌋·32 into
entropy and checksum, require 16-32 entropy bytes in multiples of 4,
recompute and compare the checksum, and return the entropy as lowercase hex
(Node's `Buffer.toString("hex")`, which renders exactly as `toHexString`).
Every failure throws in the package, modelled as `none`. -/
def mnemonicToEntropy (mnemonic : String) : Option String :=
  let words := splitOnSpace mnemonic
  if words.length % 3 ≠ 0 then none
  else match words.mapM (fun w => englishWordlist.findIdx? (fun x => x = w)) with
    | none => none
    | some idxs =>
      let bits := idxs.flatMap natToBits11
      let divider := bits.length / 33 * 32
      let entropyBytes := bitsToBytes (bits.take divider)
      if entropyBytes.length < 16 ∨ 32 < entropyBytes.length ∨ entropyBytes.length % 4 ≠ 0 then none
      else if (bytesToBits (sha256Bytes entropyBytes)).take (entropyBytes.length * 8 / 32) ≠
          bits.drop divider then none
      else some (toHexString entropyBytes)

/-- Modelled from the spec: the bip39 package's `validateMnemonic`: true
exactly when `mnemonicToEntropy` succeeds. -/
def bip39ValidateMnemonic (mnemonic : String) : Bool :=
  (mnemonicToEntropy mnemonic).isSome

/-! ## Mnemonic validation and master-key derivation (src/index.js). -/

/-- Maximal runs of non-whitespace characters of a string (helper for the
regexp split below); the accumulator carries the current run reversed. -/
def wsRunsGo : List Char → List Char → List (List Char)
  | [], acc => if acc.isEmpty then [] else [acc.reverse]
  | c :: rest, acc =>
    if isJsWhitespace c then
      (if acc.isEmpty then [] else [acc.reverse]) ++ wsRunsGo rest []
    else wsRunsGo rest (c :: acc)

/-- JavaScript `s.trim()`: leading and trailing whitespace removed. -/
def jsTrim (s : String) : String :=
  String.mk ((s.data.dropWhile isJsWhitespace).reverse.dropWhile isJsWhitespace).reverse

/-- JavaScript `s.split(/\\s+/)`: the pieces between maximal whitespace runs,
with an empty leading (resp. trailing) piece when the string starts (resp.
ends) with whitespace, and `[""]` for the empty string. -/
def jsSplitWsPlus (s : String) : List String :=
  match s.data with
  | [] => [""]
  | c :: rest =>
    (if isJsWhitespace c then [""] else []) ++
    (wsRunsGo (c :: rest) []).map (fun cs => String.mk cs) ++
    (if isJsWhitespace ((c :: rest).getLastD c) then [""] else [])

deriving instance DecidableEq for Except

/-- src/index.js `validateMnemonic(mnemonic)` (lines 33-53), on string inputs
(`!mnemonic` rejects exactly the empty string among strings; null and
non-string arguments are outside this typed model): trim, count the words of
`trimmed.split(/\\s+/)`, reject a count outside {12, 15, 18, 21, 24} with a
message carrying the count, delegate to the bip39 checksum validator, and
return the trimmed mnemonic.  Thrown `Error`s are modelled as `.error` with
the thrown message. -/
def validateMnemonic (mnemonic : String) : Except String String :=
  if mnemonic = "" then .error "Mnemonic must be a non-empty string"
  else
    let trimmed := jsTrim mnemonic
    let wordCount := (jsSplitWsPlus trimmed).length
    if ¬ ([12, 15, 18, 21, 24].contains wordCount) then
      .error ("Invalid word count: " ++ toString wordCount ++ ". Must be 12, 15, 18, 21, or 24 words.")
    else if ¬ bip39ValidateMnemonic trimmed then
      .error "Invalid mnemonic checksum or word list"
    else .ok trimmed

/-- UTF-8 encoding of one Unicode scalar value (RFC 3629), as Node encodes
JavaScript strings passed to `crypto` functions. -/
def utf8EncodeCharBytes (c : Char) : List Nat :=
  let n := c.toNat
  if n < 128 then [n]
  else if n < 2048 then [192 + n / 64, 128 + n % 64]
  else if n < 65536 then [224 + n / 4096, 128 + n / 64 % 64, 128 + n % 64]
  else [240 + n / 262144, 128 + n / 4096 % 64, 128 + n / 64 % 64, 128 + n % 64]

/-- The UTF-8 bytes of a string. -/
def utf8Bytes (s : String) : List Nat := s.data.flatMap utf8EncodeCharBytes

/-- src/index.js `hashRepeatedly(message)` (lines 97-108): hash the message
with HMAC-SHA512 under the key "ed25519 seed"; while bit 5 of byte 31 of the
digest is set (`i[31] & 0b0010_0000`, truthy when nonzero) feed the digest
back in as the next message; return the first digest with that bit clear.
The JavaScript recursion is unbounded; the first argument bounds the
recursion depth here, with `none` when the bound runs out. -/
def hashRepeatedly : Nat → List Nat → Option (List Nat)
  | 0, _ => none
  | fuel+1, message =>
    let i := hmacSha512 (utf8Bytes "ed25519 seed") message
    if Nat.land (i.getD 31 0) 32 ≠ 0 then hashRepeatedly fuel i
    else some i

/-- src/index.js `tweakBits(data)` (lines 115-124): clear the lowest three
bits of byte 0 (`data[0] &= 0b1111_1000`), clear the highest bit of byte 31
(`data[31] &= 0b0111_1111`), set the second-highest bit of byte 31
(`data[31] |= 0b0100_0000`); the in-place `Buffer` mutation becomes a pure
update (a store past the end of a short buffer is discarded, matching typed
array semantics). -/
def tweakBits (data : List Nat) : List Nat :=
  let d0 := typedArrayWrite data 0 (Nat.land (data.getD 0 0) 248)
  let d1 := typedArrayWrite d0 31 (Nat.land (d0.getD 31 0) 127)
  typedArrayWrite d1 31 (Nat.lor (d1.getD 31 0) 64)

/-- src/index.js `generateLedgerMasterKey(seed, password)` (lines 64-90):
stretch the mnemonic re-encoded from the entropy hex string via
`crypto.pbkdf2Sync(bip39.entropyToMnemonic(seed), "mnemonic" + password,
2048, 64, "sha512")`; compute the chain code as HMAC-SHA256 under the key
"ed25519 seed" of the byte 0x01 followed by the master seed; obtain a valid
scalar by `hashRepeatedly` (fuel-bounded here) and `tweakBits`; and return
the 96-byte concatenation of tweaked scalar and chain code.  A bip39 throw
on bad entropy, or exhausted fuel, is `none`. -/
def generateLedgerMasterKey (fuel : Nat) (seed password : String) : Option (List Nat) :=
  match entropyToMnemonic (bufferFromHex seed) with
  | none => none
  | some mnemonic =>
    let masterSeed := pbkdf2HmacSha512 (utf8Bytes mnemonic)
      (utf8Bytes ("mnemonic" ++ password)) 2048 64
    let message := 1 :: masterSeed
    let cc := hmacSha256 (utf8Bytes "ed25519 seed") message
    (hashRepeatedly fuel masterSeed).map fun i => tweakBits i ++ cc

/-! ## Data of the specification's known vector, and definitions written from
the specification's own wording (for the refinement claims, to be compared
with the source-derived pipeline above). -/

/-- The canonical test mnemonic of the specification's known vector. -/
def testMnemonic : String :=
  "abandon abandon abandon abandon abandon abandon abandon abandon abandon abandon abandon about"

/-- The BIP39 entropy of `testMnemonic`, as the hex string
`bip39.mnemonicToEntropy` returns (sixteen zero bytes). -/
def testEntropyHex : String := "00000000000000000000000000000000"

/-- The 96 bytes the specification's known vector expects from the master-key
derivation on `testEntropyHex` with an empty passphrase. -/
def testMasterKeyBytes : List Nat := [64, 43, 3, 205, 156, 139, 237, 155, 169, 249, 189, 108, 217, 195, 21, 206, 159, 204, 89, 199, 194, 93, 55, 200, 90, 54, 9, 102, 23, 230, 157, 65, 142, 53, 203, 74, 59, 115, 122, 253, 0, 127, 6, 136, 97, 143, 33, 168, 131, 22, 67, 192, 230, 199, 127, 195, 60, 6, 2, 109, 42, 15, 201, 56, 50, 89, 100, 53, 231, 6, 71, 215, 217, 142, 241, 2, 163, 46, 164, 3, 25, 202, 143, 182, 200, 81, 215, 52, 109, 59, 216, 249, 209, 73, 38, 88]

/-- The lowercase hex encoding of the known vector's master key. -/
def testMasterKeyHex : String :=
  "402b03cd9c8bed9ba9f9bd6cd9c315ce9fcc59c7c25d37c85a36096617e69d418e35cb4a3b737afd007f0688618f21a8" ++
  "831643c0e6c77fc33c06026d2a0fc93832596435e70647d7d98ef102a32ea40319ca8fb6c851d7346d3bd8f9d1492658"

/-- Written from the specification (§4.3): the sequence
h_0 = HMAC-SHA512(key "ed25519 seed", seed),
h_n+1 = HMAC-SHA512(key "ed25519 seed", h_n) whose first acceptable element
the Rejection-Sampling Hasher must return. -/
def hmacSeq (seed : List Nat) : Nat → List Nat
  | 0 => hmacSha512 (utf8Bytes "ed25519 seed") seed
  | n+1 => hmacSha512 (utf8Bytes "ed25519 seed") (hmacSeq seed n)

/-- Written from the specification (§4.2 Step 2): ChainCode = HMAC-SHA256
with key literal "ed25519 seed" over the message 0x01 prepended to the
64-byte MasterSeed (65 bytes total). -/
def specChainCode (masterSeed : List Nat) : List Nat :=
  hmacSha256 (utf8Bytes "ed25519 seed") (1 :: masterSeed)

/-- Written from the specification (§4.2 Step 1): PBKDF2 with password the
mnemonic sentence (UTF-8), salt the literal prefix "mnemonic" concatenated
with the passphrase, iteration count 2048, hash SHA-512, output length 64
bytes. -/
def specStretch (sentence passphrase : String) : List Nat :=
  pbkdf2HmacSha512 (utf8Bytes sentence) (utf8Bytes ("mnemonic" ++ passphrase)) 2048 64

/-- Replace every space of a string by two spaces (the test suite's
`TEST_MNEMONIC.replace(/ /g, "  ")`), producing the doubled-internal-spaces
variant the validator must reject. -/
def doubleSpaces (s : String) : String :=
  String.mk (s.data.flatMap fun c => if c = ' ' then [' ', ' '] else [c])

/-- The bytes `toByteArray` produces, pair by pair: each two adjacent
characters parse as one byte, a trailing unpaired character contributes
nothing (the closed form the loop of `toByteArrayGo` is proved to satisfy
below). -/
def hexPairBytes : List Char → List Nat
  | c1 :: c2 :: rest => jsToUint8 (jsParseIntHex [c1, c2]) :: hexPairBytes rest
  | _ => []























/-! ## Test vectors for the modelled primitives (FIPS 180-4 / RFC 4231 /
RFC 6070-style PBKDF2 vectors), checked by kernel evaluation. -/

/-- NIST vector: SHA-512 of the empty message. -/
theorem sha512_empty_vector : sha512Bytes [] = [207, 131, 225, 53, 126, 239, 184, 189, 241, 84, 40, 80, 214, 109, 128, 7, 214, 32, 228, 5, 11, 87, 21, 220, 131, 244, 169, 33, 211, 108, 233, 206, 71, 208, 209, 60, 93, 133, 242, 176, 255, 131, 24, 210, 135, 126, 236, 47, 99, 185, 49, 189, 71, 65, 122, 129, 165, 56, 50, 122, 249, 39, 218, 62] := by decide

/-- NIST vector: SHA-512 of "abc". -/
theorem sha512_abc_vector : sha512Bytes [97, 98, 99] = [221, 175, 53, 161, 147, 97, 122, 186, 204, 65, 115, 73, 174, 32, 65, 49, 18, 230, 250, 78, 137, 169, 126, 162, 10, 158, 238, 230, 75, 85, 211, 154, 33, 146, 153, 42, 39, 79, 193, 168, 54, 186, 60, 35, 163, 254, 235, 189, 69, 77, 68, 35, 100, 60, 232, 14, 42, 154, 201, 79, 165, 76, 164, 159] := by decide

/-- NIST vector: SHA-256 of the empty message. -/
theorem sha256_empty_vector : sha256Bytes [] = [227, 176, 196, 66, 152, 252, 28, 20, 154, 251, 244, 200, 153, 111, 185, 36, 39, 174, 65, 228, 100, 155, 147, 76, 164, 149, 153, 27, 120, 82, 184, 85] := by decide

/-- NIST vector: SHA-256 of "abc". -/
theorem sha256_abc_vector : sha256Bytes [97, 98, 99] = [186, 120, 22, 191, 143, 1, 207, 234, 65, 65, 64, 222, 93, 174, 34, 35, 176, 3, 97, 163, 150, 23, 122, 156, 180, 16, 255, 97, 242, 0, 21, 173] := by decide

/-- RFC 4231 test case 2 for HMAC-SHA512 (key "Jefe"). -/
theorem hmacSha512_rfc4231_vector :
    hmacSha512 [74, 101, 102, 101] [119, 104, 97, 116, 32, 100, 111, 32, 121, 97, 32, 119, 97, 110, 116, 32, 102, 111, 114, 32, 110, 111, 116, 104, 105, 110, 103, 63] =
      [22, 75, 122, 123, 252, 248, 25, 226, 227, 149, 251, 231, 59, 86, 224, 163, 135, 189, 100, 34, 46, 131, 31, 214, 16, 39, 12, 215, 234, 37, 5, 84, 151, 88, 191, 117, 192, 90, 153, 74, 109, 3, 79, 101, 248, 240, 230, 253, 202, 234, 177, 163, 77, 74, 107, 75, 99, 110, 7, 10, 56, 188, 231, 55] := by decide

/-- RFC 4231 test case 2 for HMAC-SHA256 (key "Jefe"). -/
theorem hmacSha256_rfc4231_vector :
    hmacSha256 [74, 101, 102, 101] [119, 104, 97, 116, 32, 100, 111, 32, 121, 97, 32, 119, 97, 110, 116, 32, 102, 111, 114, 32, 110, 111, 116, 104, 105, 110, 103, 63] =
      [91, 220, 193, 70, 191, 96, 117, 78, 106, 4, 36, 38, 8, 149, 117, 199, 90, 0, 63, 8, 157, 39, 57, 131, 157, 236, 88, 185, 100, 236, 56, 67] := by decide

/-- PBKDF2-HMAC-SHA512, two iterations, one derived block. -/
theorem pbkdf2_two_iterations_vector :
    pbkdf2HmacSha512 [112, 97, 115, 115, 119, 100] [115, 97, 108, 116] 2 64 =
      [66, 42, 44, 96, 155, 126, 3, 94, 21, 74, 212, 2, 54, 220, 13, 115, 152, 60, 108, 122, 70, 170, 97, 54, 70, 110, 33, 107, 59, 226, 40, 150, 207, 101, 197, 155, 233, 33, 111, 198, 89, 115, 111, 20, 210, 154, 116, 114, 134, 44, 124, 38, 30, 138, 45, 213, 60, 242, 166, 122, 115, 220, 210, 117] := by decide

/-- PBKDF2-HMAC-SHA512, three iterations, a 100-byte key spanning two
blocks. -/
theorem pbkdf2_two_blocks_vector :
    pbkdf2HmacSha512 [112, 97, 115, 115, 119, 100] [115, 97, 108, 116] 3 100 =
      [42, 214, 161, 7, 74, 40, 173, 223, 51, 45, 183, 113, 175, 170, 89, 40, 176, 190, 188, 96, 15, 40, 113, 103, 195, 102, 161, 215, 48, 248, 131, 95, 148, 231, 13, 45, 71, 130, 121, 205, 192, 218, 231, 14, 21, 76, 197, 251, 4, 66, 118, 14, 132, 105, 74, 219, 133, 246, 170, 29, 180, 231, 128, 124, 22, 134, 183, 158, 95, 248, 96, 5, 154, 190, 60, 167, 191, 222, 5, 123, 254, 216, 131, 83, 127, 150, 74, 128, 107, 77, 47, 201, 248, 119, 57, 8, 47, 36, 125, 249] := by decide

/-- The BIP39 encoding of sixteen zero bytes is the canonical test
mnemonic. -/
theorem entropyToMnemonic_zero_vector :
    entropyToMnemonic (List.replicate 16 0) = some testMnemonic := by decide

/-! ## Length lemmas for the derivation pipeline. -/

/-- `natToBytesBE` always returns exactly the requested number of bytes. -/
theorem natToBytesBE_length (n x : Nat) : (natToBytesBE n x).length = n := by
  induction n generalizing x with
  | zero => rfl
  | succ n ih => simp [natToBytesBE, ih]

/-- SHA-512 digests are 64 bytes. -/
theorem sha512Bytes_length (msg : List Nat) : (sha512Bytes msg).length = 64 := by
  simp [sha512Bytes, natToBytesBE_length]

/-- SHA-256 digests are 32 bytes. -/
theorem sha256Bytes_length (msg : List Nat) : (sha256Bytes msg).length = 32 := by
  simp [sha256Bytes, natToBytesBE_length]

/-- HMAC-SHA512 digests are 64 bytes. -/
theorem hmacSha512_length (key msg : List Nat) : (hmacSha512 key msg).length = 64 := by
  simp [hmacSha512, sha512Bytes_length]

/-- HMAC-SHA256 digests are 32 bytes. -/
theorem hmacSha256_length (key msg : List Nat) : (hmacSha256 key msg).length = 32 := by
  simp [hmacSha256, sha256Bytes_length]

/-- `typedArrayWrite` never changes the length. -/
theorem typedArrayWrite_length (l : List Nat) (i v : Nat) :
    (typedArrayWrite l i v).length = l.length := by
  unfold typedArrayWrite
  split <;> simp

/-- `tweakBits` never changes the length. -/
theorem tweakBits_length (data : List Nat) : (tweakBits data).length = data.length := by
  simp [tweakBits, typedArrayWrite_length]

/-- Unfolding equation for one round of `hashRepeatedly`. -/
theorem hashRepeatedly_succ (fuel : Nat) (message : List Nat) :
    hashRepeatedly (fuel + 1) message =
      if Nat.land ((hmacSha512 (utf8Bytes "ed25519 seed") message).getD 31 0) 32 ≠ 0 then
        hashRepeatedly fuel (hmacSha512 (utf8Bytes "ed25519 seed") message)
      else some (hmacSha512 (utf8Bytes "ed25519 seed") message) := rfl

/-- Whatever `hashRepeatedly` returns is an HMAC-SHA512 digest, hence 64
bytes. -/
theorem hashRepeatedly_length (fuel : Nat) (message digest : List Nat)
    (h : hashRepeatedly fuel message = some digest) : digest.length = 64 := by
  induction fuel generalizing message with
  | zero => exact absurd h (by simp [hashRepeatedly])
  | succ fuel ih =>
    rw [hashRepeatedly_succ] at h
    by_cases hb : Nat.land ((hmacSha512 (utf8Bytes "ed25519 seed") message).getD 31 0) 32 ≠ 0
    · rw [if_pos hb] at h
      exact ih _ h
    · rw [if_neg hb] at h
      rw [← Option.some_inj.mp h]
      exact hmacSha512_length _ _

/-- Every master key the assembler returns is the concatenation of the
tweaked accepted scalar and the chain code. -/
theorem generateLedgerMasterKey_shape (fuel : Nat) (seed password : String)
    (mk : List Nat) (h : generateLedgerMasterKey fuel seed password = some mk) :
    ∃ mnemonic i, entropyToMnemonic (bufferFromHex seed) = some mnemonic ∧
      hashRepeatedly fuel (specStretch mnemonic password) = some i ∧
      mk = tweakBits i ++ specChainCode (specStretch mnemonic password) := by
  unfold generateLedgerMasterKey at h
  split at h
  · exact absurd h (by simp)
  case _ mnemonic hmn =>
    simp only [Option.map_eq_some'] at h
    obtain ⟨i, hi, hmk⟩ := h
    exact ⟨mnemonic, i, hmn, hi, hmk.symm⟩

/-! ## The rejection-sampling hasher against the specification's digest
sequence (claim C2), and the bit tweaker (claim C3). -/

/-- Unfolding equation: the zeroth element of the digest sequence. -/
theorem hmacSeq_zero (seed : List Nat) :
    hmacSeq seed 0 = hmacSha512 (utf8Bytes "ed25519 seed") seed := rfl

/-- Unfolding equation: each later element hashes its predecessor. -/
theorem hmacSeq_succ (seed : List Nat) (n : Nat) :
    hmacSeq seed (n + 1) = hmacSha512 (utf8Bytes "ed25519 seed") (hmacSeq seed n) := rfl

/-- Advancing the seed of the specification's digest sequence by one hash
shifts the sequence by one index. -/
theorem hmacSeq_shift (seed : List Nat) (n : Nat) :
    hmacSeq (hmacSha512 (utf8Bytes "ed25519 seed") seed) n = hmacSeq seed (n + 1) := by
  induction n with
  | zero => rw [hmacSeq_zero, hmacSeq_succ, hmacSeq_zero]
  | succ n ih =>
    rw [hmacSeq_succ (hmacSha512 (utf8Bytes "ed25519 seed") seed) n, ih,
      hmacSeq_succ seed (n + 1)]

/-- One HMAC-SHA512 digest used by the C2 record: the first hash of the
one-byte seed `[2]`, which `hashRepeatedly` accepts at once (byte 31 is 202,
bit 5 clear) while bit 5 of its byte 63 (246) is set. -/
def c2Digest : List Nat := [171, 120, 76, 44, 7, 101, 225, 93, 176, 95, 152, 153, 51, 197, 129, 189, 236, 125, 123, 234, 227, 14, 28, 203, 203, 60, 167, 224, 192, 54, 22, 202, 135, 164, 124, 211, 88, 242, 87, 231, 133, 133, 217, 196, 58, 35, 156, 53, 185, 30, 173, 35, 232, 254, 202, 18, 107, 155, 57, 123, 63, 75, 182, 246]

/-- C2, corrected (the acceptance predicate reads byte 31, not byte 63, of
the digest: `i[31] & 0b0010_0000` in src/index.js line 104): whatever
`hashRepeatedly` returns is the first element of the sequence
h_0 = HMAC-SHA512("ed25519 seed", seed), h_n+1 = HMAC-SHA512("ed25519 seed", h_n)
whose byte 31 has bit 5 clear; every earlier element has that bit set, so a
rejected round's digest is exactly the next round's message. -/
theorem hashRepeatedly_first_accepted (fuel : Nat) (seed h : List Nat)
    (hh : hashRepeatedly fuel seed = some h) :
    ∃ n, h = hmacSeq seed n ∧ Nat.land ((hmacSeq seed n).getD 31 0) 32 = 0 ∧
      ∀ m, m < n → Nat.land ((hmacSeq seed m).getD 31 0) 32 ≠ 0 := by
  induction fuel generalizing seed with
  | zero => exact absurd hh (by simp [hashRepeatedly])
  | succ fuel ih =>
    rw [hashRepeatedly_succ] at hh
    by_cases hb : Nat.land ((hmacSha512 (utf8Bytes "ed25519 seed") seed).getD 31 0) 32 ≠ 0
    · rw [if_pos hb] at hh
      obtain ⟨n, h1, h2, h3⟩ := ih _ hh
      refine ⟨n + 1, ?_, ?_, ?_⟩
      · rw [h1, hmacSeq_shift]
      · rw [← hmacSeq_shift]; exact h2
      · intro m hm
        cases m with
        | zero => rw [hmacSeq_zero]; exact hb
        | succ m =>
          rw [← hmacSeq_shift]
          exact h3 m (by omega)
    · rw [if_neg hb] at hh
      push_neg at hb
      refine ⟨0, ?_, ?_, fun m hm => absurd hm (Nat.not_lt_zero m)⟩
      · rw [hmacSeq_zero]
        exact (Option.some_inj.mp hh).symm
      · rw [hmacSeq_zero]
        exact hb

/-- Counterexample to C2 as stated: on the seed `[2]` the hasher accepts the
very first digest, whose byte 63 is 246 — bit 5 of byte 63 of the returned
value is set, so the predicate the code applies cannot be about byte 63. -/
theorem hashRepeatedly_byte63_counterexample :
    (hashRepeatedly 1 [2]).map (fun h => Nat.land (h.getD 63 0) 32) = some 32 := by decide

/-- Witness for the corrected C2 theorem at the concrete seed `[2]`. -/
theorem hashRepeatedly_first_accepted_witness :
    hashRepeatedly 1 [2] = some c2Digest ∧
    ∃ n, c2Digest = hmacSeq [2] n ∧ Nat.land ((hmacSeq [2] n).getD 31 0) 32 = 0 ∧
      ∀ m, m < n → Nat.land ((hmacSeq [2] m).getD 31 0) 32 ≠ 0 :=
  ⟨by decide, hashRepeatedly_first_accepted 1 [2] c2Digest (by decide)⟩

/-- A byte masked to its high five bits has its low three bits clear. -/
theorem land248_land7 (x : Nat) : Nat.land (Nat.land x 248) 7 = 0 := by
  show x &&& 248 &&& 7 = 0
  rw [Nat.land_assoc, show (248 &&& 7 : Nat) = 0 from rfl, Nat.and_zero]

/-- The byte-31 tweak leaves bit 7 clear. -/
theorem tweak31_land128 (x : Nat) : Nat.land (Nat.lor (Nat.land x 127) 64) 128 = 0 := by
  show (x &&& 127 ||| 64) &&& 128 = 0
  have h2 : (x &&& 127 ||| 64) < 2 ^ 7 :=
    Nat.or_lt_two_pow (Nat.and_lt_two_pow x (by decide)) (by decide)
  have h := Nat.and_two_pow (x &&& 127 ||| 64) 7
  rw [Nat.testBit_lt_two_pow h2] at h
  simpa using h

/-- The byte-31 tweak leaves bit 6 set. -/
theorem tweak31_land64 (x : Nat) : Nat.land (Nat.lor (Nat.land x 127) 64) 64 = 64 := by
  show (x &&& 127 ||| 64) &&& 64 = 64
  have hb : (x &&& 127 ||| 64).testBit 6 = true := by
    rw [Nat.testBit_or, (by decide : Nat.testBit 64 6 = true), Bool.or_true]
  have h := Nat.and_two_pow (x &&& 127 ||| 64) 6
  rw [hb] at h
  simpa using h

/-- `getD` with default 0 reads the left part of an append below its length. -/
theorem getD_append_lt (l1 l2 : List Nat) (j : Nat) (h : j < l1.length) :
    (l1 ++ l2).getD j 0 = l1.getD j 0 :=
  List.getD_append l1 l2 0 j h

/-- Byte 0 after the tweak: the low three bits are masked off. -/
theorem tweakBits_getD0 (data : List Nat) (h : 32 ≤ data.length) :
    (tweakBits data).getD 0 0 = Nat.land (data.getD 0 0) 248 := by
  have h0 : 0 < data.length := by omega
  have h31 : 31 < data.length := by omega
  simp [tweakBits, typedArrayWrite, h0, h31, List.getD_eq_getElem?_getD,
    List.getElem?_set_ne (show (31 : Nat) ≠ 0 by omega), List.getElem?_set_self]

/-- Byte 31 after the tweak: bit 7 masked off, bit 6 forced on. -/
theorem tweakBits_getD31 (data : List Nat) (h : 32 ≤ data.length) :
    (tweakBits data).getD 31 0 = Nat.lor (Nat.land (data.getD 31 0) 127) 64 := by
  have h0 : 0 < data.length := by omega
  have h31 : 31 < data.length := by omega
  simp [tweakBits, typedArrayWrite, h0, h31, List.getD_eq_getElem?_getD,
    List.getElem?_set_ne (show (0 : Nat) ≠ 31 by omega), List.getElem?_set_self]

/-- Every byte other than 0 and 31 is unchanged by the tweak. -/
theorem tweakBits_getD_ne (data : List Nat) (j : Nat) (hj0 : j ≠ 0) (hj31 : j ≠ 31) :
    (tweakBits data).getD j 0 = data.getD j 0 := by
  simp only [tweakBits, typedArrayWrite]
  split_ifs <;>
    simp [List.getD_eq_getElem?_getD, List.getElem?_set_ne (Ne.symm hj0),
      List.getElem?_set_ne (Ne.symm hj31)]

/-- C3, corrected (the second and third tweaks hit byte 31, not byte 63:
`data[31] &= 0b0111_1111; data[31] |= 0b0100_0000` in src/index.js lines
119-121): the Bit Tweaker clears the low 3 bits of byte 0, clears the top
bit of byte 31, sets the second-highest bit of byte 31, and leaves every
other byte unchanged; consequently every returned master key satisfies
`out[0] & 0b0000_0111 == 0`, `out[31] & 0b1000_0000 == 0` and
`out[31] & 0b0100_0000 == 0b0100_0000`. -/
theorem tweakBits_byte31_corrected (fuel : Nat) (seed password : String) (mk : List Nat)
    (h : generateLedgerMasterKey fuel seed password = some mk) :
    (∀ data : List Nat, 32 ≤ data.length →
      (tweakBits data).getD 0 0 = Nat.land (data.getD 0 0) 248 ∧
      (tweakBits data).getD 31 0 = Nat.lor (Nat.land (data.getD 31 0) 127) 64 ∧
      ∀ j, j ≠ 0 → j ≠ 31 → (tweakBits data).getD j 0 = data.getD j 0) ∧
    Nat.land (mk.getD 0 0) 7 = 0 ∧
    Nat.land (mk.getD 31 0) 128 = 0 ∧
    Nat.land (mk.getD 31 0) 64 = 64 := by
  refine ⟨fun data hd => ⟨tweakBits_getD0 data hd, tweakBits_getD31 data hd,
    fun j hj0 hj31 => tweakBits_getD_ne data j hj0 hj31⟩, ?_, ?_, ?_⟩ <;>
  · obtain ⟨mnemonic, i, _, hi, hmk⟩ := generateLedgerMasterKey_shape fuel seed password mk h
    have hlen : i.length = 64 := hashRepeatedly_length fuel _ i hi
    have htw : (tweakBits i).length = 64 := by rw [tweakBits_length, hlen]
    rw [hmk, getD_append_lt _ _ _ (by omega)]
    first
    | rw [tweakBits_getD0 i (by omega)]; exact land248_land7 _
    | rw [tweakBits_getD31 i (by omega)]
      first
      | exact tweak31_land128 _
      | exact tweak31_land64 _

/-- Counterexample to C3 as stated: a 64-byte input whose byte 63 is 128
keeps that byte (top bit still set, second-highest bit still clear) — the
tweaks land on byte 31 instead. -/
theorem tweakBits_byte63_counterexample :
    tweakBits (255 :: (List.replicate 30 0 ++ 193 :: List.replicate 31 0 ++ [128])) =
      248 :: (List.replicate 30 0 ++ 65 :: List.replicate 31 0 ++ [128]) := by decide

/-! ## The chain code, the PBKDF2 parameters and the output length
(claims C4, C5, C6). -/

/-- A 64-byte PBKDF2-HMAC-SHA512 derivation always yields 64 bytes. -/
theorem pbkdf2HmacSha512_length_64 (password salt : List Nat) (c : Nat) :
    (pbkdf2HmacSha512 password salt c 64).length = 64 := by
  unfold pbkdf2HmacSha512
  rw [show (64 + 63) / 64 = 1 from rfl]
  simp [List.range_succ, natToBytesBE_length]

/-- C4: the last 32 bytes of every returned master key are the HMAC-SHA256,
under the key "ed25519 seed", of the byte 0x01 followed by the 64-byte
master seed (65 bytes of message in all), and the key is assembled tweaked
scalar first, chain code second. -/
theorem chainCode_framing (fuel : Nat) (seed password : String) (mk : List Nat)
    (mnemonic : String) (h : generateLedgerMasterKey fuel seed password = some mk)
    (hm : entropyToMnemonic (bufferFromHex seed) = some mnemonic) :
    (1 :: specStretch mnemonic password).length = 65 ∧
    mk.drop 64 = specChainCode (specStretch mnemonic password) ∧
    ∃ i, hashRepeatedly fuel (specStretch mnemonic password) = some i ∧
      mk = tweakBits i ++ specChainCode (specStretch mnemonic password) := by
  obtain ⟨mnemonic', i, hm', hi, hmk⟩ :=
    generateLedgerMasterKey_shape fuel seed password mk h
  have hmm : mnemonic' = mnemonic := by
    rw [hm'] at hm
    exact Option.some_inj.mp hm
  subst hmm
  have hlen : i.length = 64 := hashRepeatedly_length fuel _ i hi
  have htw : (tweakBits i).length = 64 := by rw [tweakBits_length, hlen]
  refine ⟨?_, ?_, i, hi, hmk⟩
  · simp [specStretch, pbkdf2HmacSha512_length_64]
  · rw [hmk, List.drop_left' htw]

/-- C5: the assembler's master seed is exactly PBKDF2 with password the
re-encoded mnemonic sentence (UTF-8), salt "mnemonic" ++ passphrase, 2048
iterations, SHA-512, 64 output bytes (`specStretch` is written from the
specification's wording of those fixed parameters), and the rest of the
derivation consumes only that stretched seed — no other caller-visible
parameter enters. -/
theorem masterSeed_parameters (fuel : Nat) (seed password : String) :
    generateLedgerMasterKey fuel seed password =
      match entropyToMnemonic (bufferFromHex seed) with
      | none => none
      | some mnemonic =>
        (hashRepeatedly fuel (specStretch mnemonic password)).map
          fun i => tweakBits i ++ specChainCode (specStretch mnemonic password) := by
  unfold generateLedgerMasterKey
  cases entropyToMnemonic (bufferFromHex seed) with
  | none => rfl
  | some mnemonic => rfl

/-- C6: every master key the derivation returns (rather than erring) is
exactly 96 bytes. -/
theorem generateLedgerMasterKey_length (fuel : Nat) (seed password : String)
    (mk : List Nat) (h : generateLedgerMasterKey fuel seed password = some mk) :
    mk.length = 96 := by
  obtain ⟨mnemonic, i, _, hi, hmk⟩ :=
    generateLedgerMasterKey_shape fuel seed password mk h
  have hlen : i.length = 64 := hashRepeatedly_length fuel _ i hi
  rw [hmk, List.length_append, tweakBits_length, hlen, specChainCode,
    hmacSha256_length]

/-! ## The hex codec: the `toByteArray` loop, totality and the round trip
(claims C7, C10). -/

/-- Unfolding equation for one iteration of the `toByteArray` loop. -/
theorem toByteArrayGo_succ (s : List Char) (n steps i : Nat) (res : List Nat) :
    toByteArrayGo s n (steps + 1) i res =
      toByteArrayGo s n steps (i + 2)
        (typedArrayWrite res (i / 2) (jsToUint8 (jsParseIntHex (jsSubstring s i (i + 2))))) :=
  rfl

/-- Unfolding equation for `hexPairBytes` on two or more characters. -/
theorem hexPairBytes_cons (c1 c2 : Char) (rest : List Char) :
    hexPairBytes (c1 :: c2 :: rest) =
      jsToUint8 (jsParseIntHex [c1, c2]) :: hexPairBytes rest := rfl

/-- `hexPairBytes` of no characters. -/
theorem hexPairBytes_nil : hexPairBytes ([] : List Char) = [] := rfl

/-- `hexPairBytes` of a single unpaired character. -/
theorem hexPairBytes_singleton (c : Char) : hexPairBytes [c] = [] := rfl

/-- `jsSubstring` with both ends in range is take-of-drop. -/
theorem jsSubstring_in_range (s : List Char) (i : Nat) (h : i + 2 ≤ s.length) :
    jsSubstring s i (i + 2) = (s.drop i).take 2 := by
  simp only [jsSubstring]
  rw [Nat.min_eq_left (show i ≤ s.length from by omega),
    Nat.min_eq_left (show i + 2 ≤ s.length from h),
    Nat.max_eq_right (show i ≤ i + 2 from by omega),
    Nat.min_eq_left (show i ≤ i + 2 from by omega), List.drop_take]
  congr 1
  omega

/-- The `toByteArray` loop writes the parsed pairs of the remaining
characters past the already-filled prefix of the result buffer. -/
theorem toByteArrayGo_spec (s : List Char) (n : Nat) : ∀ (steps i : Nat) (res : List Nat),
    i % 2 = 0 → res.length = s.length / 2 → steps = (s.length + 1) / 2 - i / 2 →
    toByteArrayGo s n steps i res = res.take (i / 2) ++ hexPairBytes (s.drop i) := by
  intro steps
  induction steps with
  | zero =>
    intro i res hi hres hsteps
    have hlen : s.length ≤ i := by omega
    rw [List.drop_eq_nil_of_le hlen]
    show res = res.take (i / 2) ++ hexPairBytes []
    rw [List.take_of_length_le (by omega)]
    simp [hexPairBytes]
  | succ steps ih =>
    intro i res hi hres hsteps
    have hilt : i < s.length := by omega
    rw [toByteArrayGo_succ]
    rcases hd : s.drop i with _ | ⟨c1, tl⟩
    · exact absurd (congrArg List.length hd) (by simp; omega)
    rcases tl with _ | ⟨c2, rest⟩
    · -- the odd trailing character: the write lands one past the buffer
      have hlen1 : s.length = i + 1 := by
        have := congrArg List.length hd
        simp at this
        omega
      have hwr : typedArrayWrite res (i / 2)
          (jsToUint8 (jsParseIntHex (jsSubstring s i (i + 2)))) = res := by
        unfold typedArrayWrite
        rw [if_neg (by omega)]
      rw [hwr, ih (i + 2) res (by omega) hres (by omega)]
      rw [List.drop_eq_nil_of_le (show s.length ≤ i + 2 from by omega)]
      rw [List.take_of_length_le (show res.length ≤ (i + 2) / 2 from by omega),
        List.take_of_length_le (show res.length ≤ i / 2 from by omega),
        hexPairBytes_nil, hexPairBytes_singleton]
    · -- two characters remain: one byte is written at slot i / 2
      have hlen2 : i + 2 ≤ s.length := by
        have := congrArg List.length hd
        simp at this
        omega
      have hslot : i / 2 < res.length := by omega
      have hsub : jsSubstring s i (i + 2) = [c1, c2] := by
        rw [jsSubstring_in_range s i hlen2, hd]
        rfl
      have hwr : typedArrayWrite res (i / 2)
          (jsToUint8 (jsParseIntHex (jsSubstring s i (i + 2)))) =
          res.set (i / 2) (jsToUint8 (jsParseIntHex [c1, c2])) := by
        unfold typedArrayWrite
        rw [if_pos hslot, hsub]
      rw [hwr, ih (i + 2) _ (by omega) (by simpa using hres) (by omega)]
      rw [hexPairBytes_cons, show s.drop (i + 2) = rest from by
        rw [← List.drop_drop, hd]; rfl]
      rw [show (i + 2) / 2 = i / 2 + 1 from by omega]
      rw [List.set_eq_take_cons_drop _ hslot, List.take_append_eq_append_take,
        List.take_of_length_le (show (res.take (i / 2)).length ≤ i / 2 + 1 from by
          simp only [List.length_take]; omega),
        List.length_take, Nat.min_eq_left (show i / 2 ≤ res.length from by omega),
        show i / 2 + 1 - i / 2 = 1 from by omega]
      simp

/-- `toByteArray` is the pairwise hex decoder: each two adjacent characters
one byte, a trailing unpaired character discarded. -/
theorem toByteArray_eq_hexPairBytes (s : String) :
    toByteArray s = hexPairBytes s.data := by
  unfold toByteArray
  rw [toByteArrayGo_spec s.data s.length ((s.length + 1) / 2) 0
    (List.replicate (s.length / 2) 0) rfl (by rw [List.length_replicate]; rfl)
    (by show (s.data.length + 1) / 2 = (s.data.length + 1) / 2 - 0 / 2; omega)]
  simp

/-- `hexPairBytes` decodes half as many bytes as there are characters. -/
theorem hexPairBytes_length : ∀ l : List Char, (hexPairBytes l).length = l.length / 2
  | [] => rfl
  | [c] => by
    rw [hexPairBytes_singleton]
    simp
  | _ :: _ :: t => by
    rw [hexPairBytes_cons, List.length_cons, hexPairBytes_length t,
      List.length_cons, List.length_cons]
    omega

/-- Appending one unpaired character to an even-length character list does
not change its pairwise decoding. -/
theorem hexPairBytes_snoc : ∀ (l : List Char) (c : Char), l.length % 2 = 0 →
    hexPairBytes (l ++ [c]) = hexPairBytes l
  | [], _, _ => rfl
  | [_], _, h => absurd h (by simp)
  | a :: b :: t, c, h => by
    rw [List.cons_append, List.cons_append, hexPairBytes_cons, hexPairBytes_cons,
      hexPairBytes_snoc t c (by simp only [List.length_cons] at h; omega)]

/-- C10: `fromHexString` (the source's `toByteArray`) is total — on every
string it returns `⌊length / 2⌋` bytes, equal to the pairwise decoding of
the characters, and appending one unpaired character to an even-length
string leaves the result unchanged (the final character is silently
discarded, contributing no byte and raising no error). -/
theorem toByteArray_total (s : String) :
    (toByteArray s).length = s.length / 2 ∧
    toByteArray s = hexPairBytes s.data ∧
    (s.length % 2 = 0 → ∀ c : Char,
      toByteArray (String.mk (s.data ++ [c])) = toByteArray s) := by
  refine ⟨?_, toByteArray_eq_hexPairBytes s, ?_⟩
  · rw [toByteArray_eq_hexPairBytes, hexPairBytes_length]
    rfl
  · intro hev c
    rw [toByteArray_eq_hexPairBytes, toByteArray_eq_hexPairBytes]
    exact hexPairBytes_snoc s.data c hev

/-- Witness for C10 at the odd-length three-character string "abf". -/
theorem toByteArray_total_witness :
    (toByteArray (String.mk ['a', 'b', 'f'])).length = 1 ∧
    toByteArray (String.mk ['a', 'b', 'f']) = toByteArray (String.mk ['a', 'b']) := by
  refine ⟨(toByteArray_total (String.mk ['a', 'b', 'f'])).1, ?_⟩
  have h := (toByteArray_total (String.mk ['a', 'b'])).2.2 (by decide) 'f'
  exact h

/-- The characters `toHexString` accumulates: the concatenation of each
byte's two-character zero-padded lowercase hex rendering. -/
theorem foldl_hex_data (b : List Nat) (acc : String) :
    (b.foldl (fun str byte => str ++ jsPadStart2 (jsNumToHex byte)) acc).data =
      acc.data ++ b.flatMap fun x => (jsPadStart2 (jsNumToHex x)).data := by
  induction b generalizing acc with
  | nil => simp
  | cons x t ih =>
    rw [List.foldl_cons, ih, List.flatMap_cons, String.data_append,
      List.append_assoc]

/-- `toHexString` character by character. -/
theorem toHexString_data (b : List Nat) :
    (toHexString b).data = b.flatMap fun x => (jsPadStart2 (jsNumToHex x)).data := by
  unfold toHexString
  rw [foldl_hex_data]
  rfl

/-- Each byte below 256 renders as exactly two hex characters, and parsing
those two characters with `parseInt(·, 16)` and storing through ToUint8
recovers the byte. -/
theorem hexByte_decode (x : Nat) (hx : x < 256) :
    ((jsPadStart2 (jsNumToHex x)).data.length = 2) ∧
    jsToUint8 (jsParseIntHex (jsPadStart2 (jsNumToHex x)).data) = x := by
  have hall : ∀ y : Fin 256, ((jsPadStart2 (jsNumToHex y.val)).data.length = 2) ∧
      jsToUint8 (jsParseIntHex (jsPadStart2 (jsNumToHex y.val)).data) = y.val := by decide
  exact hall ⟨x, hx⟩

/-- C7: for every byte sequence (each element an actual byte value),
decoding the hex string `toHexString` produces with `fromHexString`
(`toByteArray`) recovers the sequence exactly. -/
theorem hex_roundtrip (b : List Nat) (hb : ∀ x ∈ b, x < 256) :
    toByteArray (toHexString b) = b := by
  rw [toByteArray_eq_hexPairBytes, toHexString_data]
  induction b with
  | nil => rfl
  | cons x t ih =>
    have hx := hexByte_decode x (hb x (by simp))
    obtain ⟨c1, c2, hc⟩ := List.length_eq_two.mp hx.1
    have hx2 := hx.2
    rw [hc] at hx2
    rw [List.flatMap_cons, hc, List.cons_append, List.cons_append,
      List.nil_append, hexPairBytes_cons, hx2,
      ih (fun y hy => hb y (by simp [hy]))]

/-- Witness for C7 at the 256-byte sequence of all values 0 through 255. -/
theorem hex_roundtrip_witness :
    (∀ x ∈ List.range 256, x < 256) ∧
    toByteArray (toHexString (List.range 256)) = List.range 256 :=
  ⟨by decide, hex_roundtrip (List.range 256) (by decide)⟩

/-! ## The validator's word-count gate (claim C8). -/

/-- C8, corrected (the empty string never reaches the word-count check: the
`!mnemonic` guard of src/index.js line 34 throws "Mnemonic must be a
non-empty string" first): every non-empty input whose whitespace-split word
count is outside {12, 15, 18, 21, 24} is rejected with the word-count error
carrying the actual count, and every input whose count is in the set and
whose trimmed form passes the bip39 wordlist/checksum validation is
accepted and returned trimmed. -/
theorem validateMnemonic_word_count (m : String) (hne : m ≠ "") :
    (¬ ([12, 15, 18, 21, 24].contains (jsSplitWsPlus (jsTrim m)).length = true) →
      validateMnemonic m = .error ("Invalid word count: " ++
        toString (jsSplitWsPlus (jsTrim m)).length ++
        ". Must be 12, 15, 18, 21, or 24 words.")) ∧
    ([12, 15, 18, 21, 24].contains (jsSplitWsPlus (jsTrim m)).length = true →
      bip39ValidateMnemonic (jsTrim m) = true →
      validateMnemonic m = .ok (jsTrim m)) := by
  constructor
  · intro hcount
    simp only [validateMnemonic, if_neg hne]
    rw [if_pos hcount]
  · intro hcount hbip
    simp only [validateMnemonic, if_neg hne]
    rw [if_neg (not_not_intro hcount), if_neg (not_not_intro hbip)]

/-- Counterexample to C8 as stated: the empty string has whitespace-split
word count 1 (outside the valid set), yet the error it is rejected with is
the non-empty-string error, not a word-count error carrying the count. -/
theorem validateMnemonic_empty_counterexample :
    validateMnemonic "" = .error "Mnemonic must be a non-empty string" ∧
    (jsSplitWsPlus (jsTrim "")).length = 1 ∧
    validateMnemonic "" ≠
      .error "Invalid word count: 1. Must be 12, 15, 18, 21, or 24 words." := by
  refine ⟨by decide, by decide, by decide⟩

/-- Witness for the corrected C8 theorem: a one-word input draws the
word-count error with count 1, and the canonical test mnemonic (12 valid
words) is accepted and returned verbatim. -/
theorem validateMnemonic_word_count_witness :
    validateMnemonic "a" =
      .error "Invalid word count: 1. Must be 12, 15, 18, 21, or 24 words." ∧
    validateMnemonic testMnemonic = .ok testMnemonic := by
  constructor
  · exact (validateMnemonic_word_count "a" (by decide)).1 (by decide)
  · exact (validateMnemonic_word_count testMnemonic (by decide)).2 (by decide) (by decide)

/-! ## Doubled internal spaces are never repaired (claim C9). -/

/-- A string whose character list is empty is the empty string. -/
theorem data_ne_nil (s : String) (h : s ≠ "") : s.data ≠ [] :=
  fun hd => h (String.ext (by rw [hd]))

/-- No word of the BIP39 English wordlist contains a whitespace character
(boolean form, evaluated by the kernel). -/
theorem englishWordlist_no_ws_bool :
    englishWordlist.all (fun w => w.data.all (fun c => !isJsWhitespace c)) = true := by decide

/-- No word of the BIP39 English wordlist contains a whitespace character. -/
theorem englishWordlist_no_ws :
    ∀ w ∈ englishWordlist, ∀ c ∈ w.data, isJsWhitespace c = false := by
  intro w hw c hc
  have h1 := (List.all_eq_true.mp englishWordlist_no_ws_bool) w hw
  have h2 := (List.all_eq_true.mp h1) c hc
  simpa using h2

/-- The empty string is not a word of the BIP39 English wordlist. -/
theorem englishWordlist_no_empty :
    englishWordlist.findIdx? (fun x => x = "") = none := by decide

/-- Unfolding equation: `splitOnSpaceGo` on no characters. -/
theorem splitOnSpaceGo_nil (acc : List Char) :
    splitOnSpaceGo [] acc = [String.mk acc.reverse] := rfl

/-- Unfolding equation: `splitOnSpaceGo` on one more character. -/
theorem splitOnSpaceGo_cons (d : Char) (rest acc : List Char) :
    splitOnSpaceGo (d :: rest) acc =
      if d = ' ' then String.mk acc.reverse :: splitOnSpaceGo rest []
      else splitOnSpaceGo rest (d :: acc) := rfl

/-- Every character fed to the space splitter is a space or lands in one of
the produced words. -/
theorem ssGo_char_mem : ∀ (cs acc : List Char) (c : Char),
    c ∈ cs ∨ c ∈ acc → c = ' ' ∨ ∃ w ∈ splitOnSpaceGo cs acc, c ∈ w.data
  | [], acc, c, h => by
    rcases h with h | h
    · exact absurd h (List.not_mem_nil c)
    · refine Or.inr ⟨String.mk acc.reverse, ?_, ?_⟩
      · rw [splitOnSpaceGo_nil]
        exact List.mem_cons_self _ _
      · simpa using h
  | d :: rest, acc, c, h => by
    rw [splitOnSpaceGo_cons]
    by_cases hd : d = ' '
    · rw [if_pos hd]
      rcases h with h | h
      · rcases List.mem_cons.mp h with rfl | h'
        · exact Or.inl hd
        · rcases ssGo_char_mem rest [] c (Or.inl h') with h'' | ⟨w, hw, hcw⟩
          · exact Or.inl h''
          · exact Or.inr ⟨w, List.mem_cons_of_mem _ hw, hcw⟩
      · refine Or.inr ⟨String.mk acc.reverse, List.mem_cons_self _ _, by simpa using h⟩
    · rw [if_neg hd]
      have h' : c ∈ rest ∨ c ∈ d :: acc := by
        rcases h with h | h
        · rcases List.mem_cons.mp h with rfl | h'
          · exact Or.inr (List.mem_cons_self _ _)
          · exact Or.inl h'
        · exact Or.inr (List.mem_cons_of_mem _ h)
      exact ssGo_char_mem rest (d :: acc) c h'

/-- Two adjacent spaces anywhere in the input force an empty word in the
splitter's output. -/
theorem ssGo_empty_mem : ∀ (X acc Y : List Char),
    "" ∈ splitOnSpaceGo (X ++ ' ' :: ' ' :: Y) acc
  | [], acc, Y => by
    show "" ∈ splitOnSpaceGo (' ' :: ' ' :: Y) acc
    rw [splitOnSpaceGo_cons, if_pos rfl, splitOnSpaceGo_cons, if_pos rfl]
    exact List.mem_cons_of_mem _ (List.mem_cons_self _ _)
  | d :: X', acc, Y => by
    show "" ∈ splitOnSpaceGo (d :: (X' ++ ' ' :: ' ' :: Y)) acc
    rw [splitOnSpaceGo_cons]
    by_cases hd : d = ' '
    · rw [if_pos hd]
      exact List.mem_cons_of_mem _ (ssGo_empty_mem X' [] Y)
    · rw [if_neg hd]
      exact ssGo_empty_mem X' (d :: acc) Y

/-- An input starting with a space forces an empty word. -/
theorem splitOnSpace_head_space (s : String) (rest : List Char)
    (hd : s.data = ' ' :: rest) : "" ∈ splitOnSpace s := by
  unfold splitOnSpace
  rw [hd, splitOnSpaceGo_cons, if_pos rfl]
  exact List.mem_cons_self _ _

/-- An input ending with a space forces an empty word. -/
theorem ssGo_last_space : ∀ (cs acc : List Char), cs.getLast? = some ' ' →
    "" ∈ splitOnSpaceGo cs acc
  | [], _, h => by simp at h
  | [d], acc, h => by
    have hd : d = ' ' := by simpa using h
    subst hd
    rw [splitOnSpaceGo_cons, if_pos rfl, splitOnSpaceGo_nil]
    exact List.mem_cons_of_mem _ (List.mem_cons_self _ _)
  | d :: e :: t, acc, h => by
    have h' : (e :: t).getLast? = some ' ' := by
      rw [List.getLast?_cons_cons] at h
      exact h
    rw [splitOnSpaceGo_cons]
    by_cases hd : d = ' '
    · rw [if_pos hd]
      exact List.mem_cons_of_mem _ (ssGo_last_space (e :: t) [] h')
    · rw [if_neg hd]
      exact ssGo_last_space (e :: t) (d :: acc) h'

/-- `dropWhile` stops inside the left part of an append as soon as that part
contains a character failing the predicate. -/
theorem dropWhile_append_stops : ∀ (X R : List Char),
    (∃ c ∈ X, isJsWhitespace c = false) →
    List.dropWhile isJsWhitespace (X ++ R) = List.dropWhile isJsWhitespace X ++ R
  | [], _, hx => by simp at hx
  | d :: X', R, hx => by
    by_cases hd : isJsWhitespace d
    · have hx' : ∃ c ∈ X', isJsWhitespace c = false := by
        rcases hx with ⟨c, hc, hcf⟩
        rcases List.mem_cons.mp hc with rfl | hc'
        · exact absurd hcf (by simp [hd])
        · exact ⟨c, hc', hcf⟩
      rw [List.cons_append, List.dropWhile_cons_of_pos hd,
        List.dropWhile_cons_of_pos hd, dropWhile_append_stops X' R hx']
    · rw [List.cons_append, List.dropWhile_cons_of_neg hd,
        List.dropWhile_cons_of_neg hd]
      rfl

/-- A mapM over `Option` dies on any element the function rejects. -/
theorem mapM_find_none (f : String → Option Nat) : ∀ (l : List String) (x : String),
    x ∈ l → f x = none → l.mapM f = none
  | [], x, hx, _ => absurd hx (List.not_mem_nil x)
  | a :: t, x, hx, hfx => by
    rw [List.mapM_cons]
    rcases List.mem_cons.mp hx with rfl | hx'
    · rw [hfx]
      rfl
    · cases hfa : f a with
      | none => rfl
      | some b =>
        rw [mapM_find_none f t x hx' hfx]
        rfl

/-- A mapM over `Option` that succeeds accepted every element. -/
theorem mapM_some_mem (f : String → Option Nat) : ∀ (l : List String) (ys : List Nat),
    l.mapM f = some ys → ∀ x ∈ l, ∃ y, f x = some y
  | [], _, _, x, hx => absurd hx (List.not_mem_nil x)
  | a :: t, ys, h, x, hx => by
    rw [List.mapM_cons] at h
    cases hfa : f a with
    | none =>
      rw [hfa] at h
      exact absurd h (by simp)
    | some b =>
      rw [hfa] at h
      rcases List.mem_cons.mp hx with rfl | hx'
      · exact ⟨b, hfa⟩
      · cases hmt : t.mapM f with
        | none =>
          rw [hmt] at h
          exact absurd h (by simp)
        | some bs => exact mapM_some_mem f t bs hmt x hx'

/-- A successful index search found a satisfying element. -/
theorem findIdx?_some_exists (p : String → Bool) : ∀ (l : List String) (i j : Nat),
    l.findIdx? p i = some j → ∃ x ∈ l, p x = true
  | [], _, _, h => by rw [List.findIdx?_nil] at h; cases h
  | a :: t, i, j, h => by
    by_cases hp : p a = true
    · exact ⟨a, List.mem_cons_self a t, hp⟩
    · rw [List.findIdx?_cons, if_neg hp] at h
      obtain ⟨x, hx, hpx⟩ := findIdx?_some_exists p t (i + 1) j h
      exact ⟨x, List.mem_cons_of_mem a hx, hpx⟩

/-- An empty word anywhere makes `mnemonicToEntropy` fail: the wordlist
lookup dies on it. -/
theorem mnemonicToEntropy_none_of_empty_word (t : String)
    (h : "" ∈ splitOnSpace t) : mnemonicToEntropy t = none := by
  simp only [mnemonicToEntropy]
  by_cases h3 : (splitOnSpace t).length % 3 ≠ 0
  · rw [if_pos h3]
  · rw [if_neg h3, mapM_find_none (fun w => englishWordlist.findIdx? (fun x => x = w))
      (splitOnSpace t) "" h englishWordlist_no_empty]

/-- Words of a mnemonic `mnemonicToEntropy` accepts all sit in the wordlist. -/
theorem mnemonicToEntropy_some_words (t e : String) (h : mnemonicToEntropy t = some e) :
    ∀ w ∈ splitOnSpace t, w ∈ englishWordlist := by
  simp only [mnemonicToEntropy] at h
  by_cases h3 : (splitOnSpace t).length % 3 ≠ 0
  · rw [if_pos h3] at h
    exact absurd h (by simp)
  · rw [if_neg h3] at h
    cases hmm : (splitOnSpace t).mapM
        (fun w => englishWordlist.findIdx? (fun x => x = w)) with
    | none =>
      rw [hmm] at h
      exact absurd h (by simp)
    | some idxs =>
      intro w hw
      obtain ⟨y, hy⟩ := mapM_some_mem (fun w => englishWordlist.findIdx? (fun x => x = w))
        (splitOnSpace t) idxs hmm w hw
      obtain ⟨x, hx, hpx⟩ := findIdx?_some_exists _ englishWordlist 0 y hy
      have : x = w := by simpa using hpx
      rw [← this]
      exact hx

/-- What acceptance by the source validator pins down: the input is
non-empty, the returned mnemonic is the trimmed input, the word count is in
the valid set, and the bip39 check passed on the trimmed input. -/
theorem validateMnemonic_ok_parts (s r : String) (h : validateMnemonic s = .ok r) :
    s ≠ "" ∧ r = jsTrim s ∧
    ([12, 15, 18, 21, 24].contains (jsSplitWsPlus (jsTrim s)).length = true) ∧
    bip39ValidateMnemonic (jsTrim s) = true := by
  by_cases h1 : s = ""
  · rw [h1] at h
    simp [validateMnemonic] at h
  · simp only [validateMnemonic, if_neg h1] at h
    by_cases h2 : [12, 15, 18, 21, 24].contains (jsSplitWsPlus (jsTrim s)).length = true
    · rw [if_neg (not_not_intro h2)] at h
      by_cases h3 : bip39ValidateMnemonic (jsTrim s) = true
      · rw [if_neg (not_not_intro h3)] at h
        exact ⟨h1, (Except.ok.inj h).symm, h2, h3⟩
      · rw [if_pos h3] at h
        exact absurd h (by simp)
    · rw [if_pos h2] at h
      exact absurd h (by simp)

/-- Unfolding equation: `wsRunsGo` on no characters. -/
theorem wsRunsGo_nil (acc : List Char) :
    wsRunsGo [] acc = if acc.isEmpty then [] else [acc.reverse] := rfl

/-- Unfolding equation: `wsRunsGo` on one more character. -/
theorem wsRunsGo_cons (d : Char) (rest acc : List Char) :
    wsRunsGo (d :: rest) acc =
      if isJsWhitespace d then
        (if acc.isEmpty then [] else [acc.reverse]) ++ wsRunsGo rest []
      else wsRunsGo rest (d :: acc) := rfl

/-- With no whitespace anywhere, the run collector returns one run. -/
theorem wsRunsGo_no_ws : ∀ (cs acc : List Char),
    (∀ c ∈ cs, isJsWhitespace c = false) → acc ≠ [] ∨ cs ≠ [] →
    wsRunsGo cs acc = [acc.reverse ++ cs]
  | [], acc, _, hor => by
    have hacc : acc ≠ [] := by
      rcases hor with h | h
      · exact h
      · exact absurd rfl h
    rw [wsRunsGo_nil, if_neg (by simpa using hacc)]
    simp
  | d :: rest, acc, hws, _ => by
    rw [wsRunsGo_cons, if_neg (by simp [hws d (List.mem_cons_self d rest)])]
    rw [wsRunsGo_no_ws rest (d :: acc)
      (fun c hc => hws c (List.mem_cons_of_mem d hc)) (Or.inl (by simp))]
    simp

/-- With no whitespace in a non-empty string, the regexp split returns the
whole string as its one word. -/
theorem jsSplitWsPlus_no_ws (s : String) (hne : s.data ≠ [])
    (hws : ∀ c ∈ s.data, isJsWhitespace c = false) : jsSplitWsPlus s = [s] := by
  obtain ⟨c, rest, hdata⟩ : ∃ c rest, s.data = c :: rest := by
    cases hcs : s.data with
    | nil => exact absurd hcs hne
    | cons c rest => exact ⟨c, rest, rfl⟩
  have hstep : jsSplitWsPlus s =
      (if isJsWhitespace c then [""] else []) ++
      (wsRunsGo (c :: rest) []).map (fun cs => String.mk cs) ++
      (if isJsWhitespace ((c :: rest).getLastD c) then [""] else []) := by
    unfold jsSplitWsPlus
    rw [hdata]
  have hcf : isJsWhitespace c = false := hws c (by rw [hdata]; exact List.mem_cons_self _ _)
  have hlast : isJsWhitespace ((c :: rest).getLastD c) = false := by
    refine hws _ ?_
    rw [hdata, List.getLastD_cons]
    exact List.getLastD_mem_cons rest c
  rw [hstep, if_neg (by simp [hcf]), if_neg (by rw [hlast]; simp),
    wsRunsGo_no_ws (c :: rest) [] (by rw [← hdata]; exact hws) (Or.inr (by simp))]
  simp only [List.nil_append, List.append_nil, List.reverse_nil, List.map_cons, List.map_nil]
  have : String.mk (c :: rest) = s := by
    rw [← hdata]
  rw [this]

/-- C9: a mnemonic the validator accepts verbatim is rejected once its
spaces are doubled — `validateMnemonic` never silently collapses internal
whitespace to repair such a phrase: the doubled variant cannot be accepted
with any return value (the bip39 check sees an empty word between the two
spaces, so the rejection surfaces as a checksum/word-count mismatch). -/
theorem doubled_spaces_rejected (m : String) (h : validateMnemonic m = .ok m) :
    ∀ r, validateMnemonic (doubleSpaces m) ≠ .ok r := by
  obtain ⟨hne, htrim, hcount, hbip⟩ := validateMnemonic_ok_parts m m h
  have htm : jsTrim m = m := htrim.symm
  rw [htm] at hcount hbip
  intro r hok
  obtain ⟨hne2, _, _, hbip2⟩ := validateMnemonic_ok_parts (doubleSpaces m) r hok
  obtain ⟨e, he⟩ : ∃ e, mnemonicToEntropy m = some e := by
    unfold bip39ValidateMnemonic at hbip
    exact Option.isSome_iff_exists.mp hbip
  have hwords : ∀ w ∈ splitOnSpace m, w ∈ englishWordlist :=
    mnemonicToEntropy_some_words m e he
  have hclass : ∀ c ∈ m.data, c = ' ' ∨ isJsWhitespace c = false := by
    intro c hc
    rcases ssGo_char_mem m.data [] c (Or.inl hc) with h' | ⟨w, hw, hcw⟩
    · exact Or.inl h'
    · exact Or.inr (englishWordlist_no_ws w (hwords w hw) c hcw)
  have hhead : ∀ rest, m.data ≠ ' ' :: rest := by
    intro rest hdm
    have hmem : "" ∈ splitOnSpace m := splitOnSpace_head_space m rest hdm
    rw [mnemonicToEntropy_none_of_empty_word m hmem] at he
    exact Option.noConfusion he
  have hlastne : m.data.getLast? ≠ some ' ' := by
    intro hl
    have hmem : "" ∈ splitOnSpace m := ssGo_last_space m.data [] hl
    rw [mnemonicToEntropy_none_of_empty_word m hmem] at he
    exact Option.noConfusion he
  obtain ⟨X, Y, hXY⟩ : ∃ X Y, m.data = X ++ ' ' :: Y := by
    by_cases hsp : ∃ c ∈ m.data, c = ' '
    · obtain ⟨c, hc, rfl⟩ := hsp
      exact List.append_of_mem hc
    · push_neg at hsp
      have hnws : ∀ c ∈ m.data, isJsWhitespace c = false := by
        intro c hc
        rcases hclass c hc with h' | h'
        · exact absurd h' (hsp c hc)
        · exact h'
      have h1 : jsSplitWsPlus m = [m] :=
        jsSplitWsPlus_no_ws m (data_ne_nil m hne) hnws
      have hlen : (jsSplitWsPlus m).length = 1 := by rw [h1]; rfl
      rw [hlen] at hcount
      exact absurd hcount (by decide)
  obtain ⟨x0, X', hX⟩ : ∃ x0 X', X = x0 :: X' := by
    cases hX0 : X with
    | nil =>
      rw [hX0, List.nil_append] at hXY
      exact absurd hXY (hhead Y)
    | cons x0 X' => exact ⟨x0, X', rfl⟩
  have hx0m : x0 ∈ m.data := by
    rw [hXY, hX]
    exact List.mem_append_left _ (List.mem_cons_self x0 X')
  have hx0 : isJsWhitespace x0 = false := by
    rcases hclass x0 hx0m with h' | h'
    · subst h'
      exact absurd (by rw [hXY, hX]; rfl : m.data = ' ' :: (X' ++ ' ' :: Y)) (hhead _)
    · exact h'
  obtain ⟨yl, hylY, hyl⟩ : ∃ yl, yl ∈ Y ∧ isJsWhitespace yl = false := by
    cases hY0 : Y with
    | nil =>
      exfalso
      apply hlastne
      rw [hXY, hY0]
      simp
    | cons y1 Y' =>
      have hz : (y1 :: Y').getLast? = some ((y1 :: Y').getLast (by simp)) :=
        List.getLast?_eq_getLast _ (by simp)
      have hl : m.data.getLast? = some ((y1 :: Y').getLast (by simp)) := by
        rw [hXY, hY0, List.getLast?_append, List.getLast?_cons_cons, hz]
        rfl
      have hzm : (y1 :: Y').getLast (by simp) ∈ m.data := by
        rw [hXY, hY0]
        exact List.mem_append_right _
          (List.mem_cons_of_mem _ (List.getLast_mem (by simp)))
      refine ⟨(y1 :: Y').getLast (by simp), ?_, ?_⟩
      · exact List.getLast_mem (by simp)
      · rcases hclass _ hzm with h' | h'
        · rw [h'] at hl
          exact absurd hl hlastne
        · exact h'
  have hds : (doubleSpaces m).data =
      (X.flatMap fun c => if c = ' ' then [' ', ' '] else [c]) ++ ' ' :: ' ' ::
      (Y.flatMap fun c => if c = ' ' then [' ', ' '] else [c]) := by
    show (m.data.flatMap fun c => if c = ' ' then [' ', ' '] else [c]) = _
    rw [hXY, List.flatMap_append, List.flatMap_cons, if_pos rfl]
    rfl
  have hx0ne : x0 ≠ ' ' := by
    intro heq
    rw [heq] at hx0
    exact absurd hx0 (by decide)
  have hylne : yl ≠ ' ' := by
    intro heq
    rw [heq] at hyl
    exact absurd hyl (by decide)
  have hx0f : x0 ∈ X.flatMap (fun c => if c = ' ' then [' ', ' '] else [c]) :=
    List.mem_flatMap_of_mem (by rw [hX]; exact List.mem_cons_self _ _)
      (by rw [if_neg hx0ne]; exact List.mem_cons_self _ _)
  have hylf : yl ∈ (Y.flatMap (fun c => if c = ' ' then [' ', ' '] else [c])).reverse :=
    List.mem_reverse.mpr (List.mem_flatMap_of_mem hylY
      (by rw [if_neg hylne]; exact List.mem_cons_self _ _))
  obtain ⟨X2, Y2, hXY2⟩ :
      ∃ X2 Y2, (jsTrim (doubleSpaces m)).data = X2 ++ ' ' :: ' ' :: Y2 := by
    refine ⟨List.dropWhile isJsWhitespace
        (X.flatMap fun c => if c = ' ' then [' ', ' '] else [c]),
      (List.dropWhile isJsWhitespace
        ((Y.flatMap fun c => if c = ' ' then [' ', ' '] else [c]).reverse)).reverse, ?_⟩
    show ((((doubleSpaces m).data.dropWhile isJsWhitespace).reverse.dropWhile
      isJsWhitespace)).reverse = _
    rw [hds, dropWhile_append_stops _ _ ⟨x0, hx0f, hx0⟩, List.reverse_append]
    simp only [List.reverse_cons, List.append_assoc, List.singleton_append,
      List.nil_append]
    rw [dropWhile_append_stops _ _ ⟨yl, hylf, hyl⟩, List.reverse_append]
    simp only [List.reverse_append, List.reverse_cons, List.reverse_reverse,
      List.reverse_nil, List.append_assoc, List.singleton_append,
      List.nil_append, List.cons_append]
  have hememp : "" ∈ splitOnSpace (jsTrim (doubleSpaces m)) := by
    show "" ∈ splitOnSpaceGo (jsTrim (doubleSpaces m)).data []
    rw [hXY2]
    exact ssGo_empty_mem X2 [] Y2
  have hnone := mnemonicToEntropy_none_of_empty_word _ hememp
  unfold bip39ValidateMnemonic at hbip2
  rw [hnone] at hbip2
  exact absurd hbip2 (by decide)

/-- Witness for C9 at the canonical test mnemonic. -/
theorem doubled_spaces_rejected_witness :
    validateMnemonic testMnemonic = .ok testMnemonic ∧
    ∀ r, validateMnemonic (doubleSpaces testMnemonic) ≠ .ok r :=
  ⟨by decide, doubled_spaces_rejected testMnemonic (by decide)⟩

/-! ## The known vector, evaluated end to end in the kernel (claim C1).

The 2048-iteration PBKDF2 run is checked in eight bounded slices: the
accumulating loop works on an explicit state pair iterated by `iterPair`,
each slice of at most 256 iterates is evaluated by the kernel, and the
slices are glued by the additivity of the iteration count. -/

/-- Unfolding equation: zero steps leave the state pair alone. -/
theorem iterPair_zero (g : Nat → Nat) (p : Nat × Nat) : iterPair g 0 p = p := rfl

/-- Unfolding equation: one more step advances the state pair by one
`stepAcc`. -/
theorem iterPair_succ (g : Nat → Nat) (n : Nat) (p : Nat × Nat) :
    iterPair g (n + 1) p = iterPair g n (stepAcc g p) := by
  have hs : stepAcc g p = match g p.1 with
      | 0 => (0, p.2)
      | v+1 => (v+1, Nat.xor p.2 (v+1)) := rfl
  show (match g p.1 with
      | 0 => iterPair g n (0, p.2)
      | v+1 => iterPair g n (v+1, Nat.xor p.2 (v+1))) = iterPair g n (stepAcc g p)
  cases hv : g p.1 with
  | zero => rw [hs, hv]
  | succ v => rw [hs, hv]

/-- Steps compose: a run of `a + b` steps is `a` steps then `b` steps. -/
theorem iterPair_add (g : Nat → Nat) : ∀ (a b : Nat) (p : Nat × Nat),
    iterPair g (a + b) p = iterPair g b (iterPair g a p)
  | 0, b, p => by rw [Nat.zero_add, iterPair_zero]
  | a+1, b, p => by
    rw [show a + 1 + b = (a + b) + 1 from by omega, iterPair_succ,
      iterPair_add g a b (stepAcc g p), iterPair_succ]

/-- The accumulating loop is the second component of the iterated pair. -/
theorem pbkdf2Loop_def (i o n u acc : Nat) :
    pbkdf2Loop i o n u acc = (iterPair (hmacSha512IterP i o) n (u, acc)).2 := rfl

/-- Kernel evaluation of the first block state H(K0 xor ipad). -/
theorem testIpadSt_eval :
    sha512CompressP shaIVP512 (packBytes ((hmacKeyBlock sha512Bytes 128 (utf8Bytes testMnemonic)).map fun b => Nat.xor b 54)) =
    10468683842486578145264356991734223572653524354660049206311581660438991474758024121521140297297774895679865233876240857588960575004859884415888454358128062 := by decide

/-- Kernel evaluation of the first block state H(K0 xor opad). -/
theorem testOpadSt_eval :
    sha512CompressP shaIVP512 (packBytes ((hmacKeyBlock sha512Bytes 128 (utf8Bytes testMnemonic)).map fun b => Nat.xor b 92)) =
    13288892686255875303959900692803541847857188832728530167366222028633524236431143143130705259410641441459772430520746127054290760539436806979861656762130315 := by decide

/-- Kernel evaluation of U_1 = HMAC(P, S ‖ INT32BE(1)) on the known vector. -/
theorem testU1_eval :
    packBytes (hmacSha512 (utf8Bytes testMnemonic) (utf8Bytes ("mnemonic" ++ "") ++ natToBytesBE 4 (0 + 1))) =
    5281647394817207772940303989511398945426893379361828068487779081461910995983955259522149717436805822879914698364697185480759068547217089903725453340453687 := by decide

/-- Slice 1 of the PBKDF2 run: iterates up to number 256. -/
theorem testPbkdf2Slice1 :
    iterPair (hmacSha512IterP 10468683842486578145264356991734223572653524354660049206311581660438991474758024121521140297297774895679865233876240857588960575004859884415888454358128062
      13288892686255875303959900692803541847857188832728530167366222028633524236431143143130705259410641441459772430520746127054290760539436806979861656762130315)
      255 (5281647394817207772940303989511398945426893379361828068487779081461910995983955259522149717436805822879914698364697185480759068547217089903725453340453687,
      5281647394817207772940303989511398945426893379361828068487779081461910995983955259522149717436805822879914698364697185480759068547217089903725453340453687) =
      (6315737925101287186505115962155489673993955512871401532498148558181254033099744700114460453032264672131282273014043601095861533028593645705653118389186244,
      5913606454668666992049840740891252936880863180879356698287210743205574958146465413469983401995111448560768986421887213675204731229249956306559328070138829) := by decide!

/-- Slice 2 of the PBKDF2 run: iterates up to number 512. -/
theorem testPbkdf2Slice2 :
    iterPair (hmacSha512IterP 10468683842486578145264356991734223572653524354660049206311581660438991474758024121521140297297774895679865233876240857588960575004859884415888454358128062
      13288892686255875303959900692803541847857188832728530167366222028633524236431143143130705259410641441459772430520746127054290760539436806979861656762130315)
      256 (6315737925101287186505115962155489673993955512871401532498148558181254033099744700114460453032264672131282273014043601095861533028593645705653118389186244,
      5913606454668666992049840740891252936880863180879356698287210743205574958146465413469983401995111448560768986421887213675204731229249956306559328070138829) =
      (11719702891747423429004988301349923155330009055891847180067154750100244483620534112787163512902845537657526973181434150096282619692680454895633606306015752,
      12144964326661094485168775656504195528029055090913492286139543688166800511009962894003604511142135022675391903045859181604141515036899747159107537207100267) := by decide!

/-- Slice 3 of the PBKDF2 run: iterates up to number 768. -/
theorem testPbkdf2Slice3 :
    iterPair (hmacSha512IterP 10468683842486578145264356991734223572653524354660049206311581660438991474758024121521140297297774895679865233876240857588960575004859884415888454358128062
      13288892686255875303959900692803541847857188832728530167366222028633524236431143143130705259410641441459772430520746127054290760539436806979861656762130315)
      256 (11719702891747423429004988301349923155330009055891847180067154750100244483620534112787163512902845537657526973181434150096282619692680454895633606306015752,
      12144964326661094485168775656504195528029055090913492286139543688166800511009962894003604511142135022675391903045859181604141515036899747159107537207100267) =
      (5519972510016438192022702446716880928365090366374355406462343521300497641551097092626860457872251202019278930695796350358194966861041205032343267566714350,
      7370095407057743590440587901039816385543360832388661266849108067036215878904782036667652785439146579567249999960205012485131577829421363681520356963176590) := by decide!

/-- Slice 4 of the PBKDF2 run: iterates up to number 1024. -/
theorem testPbkdf2Slice4 :
    iterPair (hmacSha512IterP 10468683842486578145264356991734223572653524354660049206311581660438991474758024121521140297297774895679865233876240857588960575004859884415888454358128062
      13288892686255875303959900692803541847857188832728530167366222028633524236431143143130705259410641441459772430520746127054290760539436806979861656762130315)
      256 (5519972510016438192022702446716880928365090366374355406462343521300497641551097092626860457872251202019278930695796350358194966861041205032343267566714350,
      7370095407057743590440587901039816385543360832388661266849108067036215878904782036667652785439146579567249999960205012485131577829421363681520356963176590) =
      (791267141003437938360248850646689088291247016158877362786289583163960200434917318493326103079918341169777150776204099250415499177402888311371709354501568,
      1957711007032836528020813705157730571281450116148119514243607717068458534216319303576791642552045074377041539396025830829712967427074431447210552075230424) := by decide!

/-- Slice 5 of the PBKDF2 run: iterates up to number 1280. -/
theorem testPbkdf2Slice5 :
    iterPair (hmacSha512IterP 10468683842486578145264356991734223572653524354660049206311581660438991474758024121521140297297774895679865233876240857588960575004859884415888454358128062
      13288892686255875303959900692803541847857188832728530167366222028633524236431143143130705259410641441459772430520746127054290760539436806979861656762130315)
      256 (791267141003437938360248850646689088291247016158877362786289583163960200434917318493326103079918341169777150776204099250415499177402888311371709354501568,
      1957711007032836528020813705157730571281450116148119514243607717068458534216319303576791642552045074377041539396025830829712967427074431447210552075230424) =
      (8287857023324415345106419524936426568974559612669243672539322772510193863650041148363945300333115790065040828987934835067729487174253668580612964188450451,
      6904549830463530970752042523195158350561350555536076203939263615359642812813167230437352382653265962060682496882457820836649600687788717271319930595630728) := by decide!

/-- Slice 6 of the PBKDF2 run: iterates up to number 1536. -/
theorem testPbkdf2Slice6 :
    iterPair (hmacSha512IterP 10468683842486578145264356991734223572653524354660049206311581660438991474758024121521140297297774895679865233876240857588960575004859884415888454358128062
      13288892686255875303959900692803541847857188832728530167366222028633524236431143143130705259410641441459772430520746127054290760539436806979861656762130315)
      256 (8287857023324415345106419524936426568974559612669243672539322772510193863650041148363945300333115790065040828987934835067729487174253668580612964188450451,
      6904549830463530970752042523195158350561350555536076203939263615359642812813167230437352382653265962060682496882457820836649600687788717271319930595630728) =
      (10703092133799970297279711208603070660103145704037972211966684890841977151489848750467890764889732990975383290247432129564634561295210838596706174290241844,
      10953738817509506683256518010201910184062518020182566186342872476562609615349128403806340783224938414572545935759345631638317535057921888001454648097360516) := by decide!

/-- Slice 7 of the PBKDF2 run: iterates up to number 1792. -/
theorem testPbkdf2Slice7 :
    iterPair (hmacSha512IterP 10468683842486578145264356991734223572653524354660049206311581660438991474758024121521140297297774895679865233876240857588960575004859884415888454358128062
      13288892686255875303959900692803541847857188832728530167366222028633524236431143143130705259410641441459772430520746127054290760539436806979861656762130315)
      256 (10703092133799970297279711208603070660103145704037972211966684890841977151489848750467890764889732990975383290247432129564634561295210838596706174290241844,
      10953738817509506683256518010201910184062518020182566186342872476562609615349128403806340783224938414572545935759345631638317535057921888001454648097360516) =
      (8579524337575397978309781729229419232112793177840775364810242736234396423606938867908666522562464375483625121589966861079294920078640073702336470909119701,
      1524811779852571730924112676619237710678298104964861595658992804775345370481455010955577066381400733848218360709579007218481543802865220885808166988626090) := by decide!

/-- Slice 8 of the PBKDF2 run: iterates up to number 2048. -/
theorem testPbkdf2Slice8 :
    iterPair (hmacSha512IterP 10468683842486578145264356991734223572653524354660049206311581660438991474758024121521140297297774895679865233876240857588960575004859884415888454358128062
      13288892686255875303959900692803541847857188832728530167366222028633524236431143143130705259410641441459772430520746127054290760539436806979861656762130315)
      256 (8579524337575397978309781729229419232112793177840775364810242736234396423606938867908666522562464375483625121589966861079294920078640073702336470909119701,
      1524811779852571730924112676619237710678298104964861595658992804775345370481455010955577066381400733848218360709579007218481543802865220885808166988626090) =
      (9129053005738634096959662091295068505804389711991971353914969283530667956374043106188389451048893718619720213590061451356741117587685176157147221034691976,
      4959196154511253021132517352371015450761028935263166299346430197451601546737797461226065896555066272632852869173503262500053017770963374666301121100658916) := by decide!

/-- The master seed of the known vector: the full PBKDF2-HMAC-SHA512
stretch with 2048 iterations, assembled from the eight kernel-checked
slices. -/
theorem testStretch_eval :
    pbkdf2HmacSha512 (utf8Bytes testMnemonic) (utf8Bytes ("mnemonic" ++ "")) 2048 64 =
      [94, 176, 11, 189, 220, 240, 105, 8, 72, 137, 168, 171, 145, 85, 86, 129, 101, 245, 196, 83, 204, 184, 94, 112, 129, 26, 174, 214, 246, 218, 95, 193, 154, 90, 196, 11, 56, 156, 211, 112, 208, 134, 32, 109, 236, 138, 166, 196, 61, 174, 166, 105, 15, 32, 173, 61, 141, 72, 178, 210, 206, 158, 56, 228] := by
  show (natToBytesBE 64 (pbkdf2Loop
      (sha512CompressP shaIVP512 (packBytes ((hmacKeyBlock sha512Bytes 128 (utf8Bytes testMnemonic)).map fun b => Nat.xor b 54)))
      (sha512CompressP shaIVP512 (packBytes ((hmacKeyBlock sha512Bytes 128 (utf8Bytes testMnemonic)).map fun b => Nat.xor b 92)))
      (2048 - 1)
      (packBytes (hmacSha512 (utf8Bytes testMnemonic) (utf8Bytes ("mnemonic" ++ "") ++ natToBytesBE 4 (0 + 1))))
      (packBytes (hmacSha512 (utf8Bytes testMnemonic) (utf8Bytes ("mnemonic" ++ "") ++ natToBytesBE 4 (0 + 1))))) ++ []).take 64 = _
  rw [pbkdf2Loop_def, testU1_eval, testIpadSt_eval, testOpadSt_eval,
    show (2048 : Nat) - 1 = 2047 from rfl,
    show (2047 : Nat) = 255 + (256 + (256 + (256 + (256 + (256 + (256 + 256)))))) from rfl]
  rw [iterPair_add, testPbkdf2Slice1, iterPair_add, testPbkdf2Slice2, iterPair_add, testPbkdf2Slice3, iterPair_add, testPbkdf2Slice4, iterPair_add, testPbkdf2Slice5, iterPair_add, testPbkdf2Slice6, iterPair_add, testPbkdf2Slice7, testPbkdf2Slice8]
  decide

/-- Kernel evaluation of the rest of the derivation pipeline on the known
vector: the chain-code HMAC, five rejection-sampling rounds and the bit
tweaks on the slice-assembled master seed. -/
theorem genTestEval :
    generateLedgerMasterKey 8 testEntropyHex "" = some testMasterKeyBytes := by
  have hm : entropyToMnemonic (bufferFromHex testEntropyHex) = some testMnemonic := by
    decide
  simp only [generateLedgerMasterKey]
  rw [hm]
  show (hashRepeatedly 8
      (pbkdf2HmacSha512 (utf8Bytes testMnemonic) (utf8Bytes ("mnemonic" ++ "")) 2048 64)).map
    (fun i => tweakBits i ++ hmacSha256 (utf8Bytes "ed25519 seed")
      (1 :: pbkdf2HmacSha512 (utf8Bytes testMnemonic)
        (utf8Bytes ("mnemonic" ++ "")) 2048 64)) = some testMasterKeyBytes
  rw [testStretch_eval]
  decide

/-- C1: the canonical mnemonic's entropy is the all-zero 16-byte string, and
the master-key derivation on it with an empty passphrase returns exactly the
96-byte value whose lowercase hex encoding is the specification's expected
string. -/
theorem known_vector_master_key :
    mnemonicToEntropy testMnemonic = some testEntropyHex ∧
    generateLedgerMasterKey 8 testEntropyHex "" = some testMasterKeyBytes ∧
    toHexString testMasterKeyBytes = testMasterKeyHex :=
  ⟨by decide, genTestEval, by decide⟩

/-- Witness for the corrected C3 theorem on the known vector's master key. -/
theorem tweakBits_byte31_corrected_witness :
    Nat.land (testMasterKeyBytes.getD 0 0) 7 = 0 ∧
    Nat.land (testMasterKeyBytes.getD 31 0) 128 = 0 ∧
    Nat.land (testMasterKeyBytes.getD 31 0) 64 = 64 :=
  (tweakBits_byte31_corrected 8 testEntropyHex "" testMasterKeyBytes genTestEval).2

/-- Witness for C4 on the known vector's master key. -/
theorem chainCode_framing_witness :
    (1 :: specStretch testMnemonic "").length = 65 ∧
    testMasterKeyBytes.drop 64 = specChainCode (specStretch testMnemonic "") ∧
    ∃ i, hashRepeatedly 8 (specStretch testMnemonic "") = some i ∧
      testMasterKeyBytes = tweakBits i ++ specChainCode (specStretch testMnemonic "") :=
  chainCode_framing 8 testEntropyHex "" testMasterKeyBytes testMnemonic
    genTestEval (by decide)

/-- Witness for C6 on the known vector's master key. -/
theorem generateLedgerMasterKey_length_witness :
    generateLedgerMasterKey 8 testEntropyHex "" = some testMasterKeyBytes ∧
    testMasterKeyBytes.length = 96 :=
  ⟨genTestEval,
    generateLedgerMasterKey_length 8 testEntropyHex "" testMasterKeyBytes genTestEval⟩
